import Mathlib

/-!
# LoRa Ra-02 SX1278 firmware: the acknowledged-delivery state machine

A shallow embedding of `bidirectional-master/src/main.cpp` (the send / retry /
dispatch state machine) together with `LoRaComm::sendPacket` and
`LoRaComm::receivePacket` from `lib/LoRaComm/LoRaComm.cpp`, and of
`DualLoRaComm::selectModule` from `lib/DualLoRaComm/DualLoRaComm.cpp`.

Conventions of the embedding.

* The global variables of `main.cpp` are the fields of `Node`.  Every C++
  function that mutates them is a Lean function `Node → Node` (or
  `Node → Bool × Node` when it returns a value).
* `MessageProtocol`, `DummySensors` and `SerialCommands` are declared in headers
  that are not part of the sources at hand.  Their methods and constants are the
  fields of `Collaborators`; the private state of these objects (message-id
  counter, sensor generator) is the abstract type `σ`.
* `LoRaComm` is embedded from `receiver/lib/LoRaComm/LoRaComm.cpp`, the copy of
  the class at hand.
* Time is the field `clock` (milliseconds).  `millis()` reads it modulo `2^32`
  (`unsigned long`), `delay(ms)` advances it.  Code that does not call `delay`
  takes no time inside a function; the time a loop iteration takes beyond its
  delays is an input of `loop`.
* The radio is an oracle `air : Nat → Bool`: `air k` is what `LoRa.endPacket()`
  answers to the `k`-th call of `sendPacket` (counted from 0).
* Everything observable is appended to `events`: each `sendPacket` call, each
  `delay`, each `serialCmd` report, and each entry into `handleRxProcessing`.
  The `Serial.print` debugging output is not recorded.
* Statistics counters are unbounded naturals: their C++ type is declared in a
  header that is not available.  `retryCount` is a `uint8_t` and wraps at 256,
  the acknowledged id is a `uint16_t`.
-/

namespace LoRaFirmware

/-! ## Data model -/

/-- The `State` enum of `main.cpp`. -/
inductive State where
  | STATE_IDLE
  | STATE_TX_WAIT_ACK
  | STATE_RX_PROCESSING
  | STATE_ERROR
deriving DecidableEq, Repr

/-- The message kinds that `handleRxProcessing` switches on.  The case labels of a
C++ `switch` are pairwise distinct, so the kinds are the constructors of an
enumeration; `MSG_OTHER` is the `default:` branch. -/
inductive MessageType where
  | MSG_TEXT
  | MSG_SENSOR_REQUEST
  | MSG_SENSOR_RESPONSE
  | MSG_COMMAND
  | MSG_ACK
  | MSG_NACK
  | MSG_OTHER (code : Nat)
deriving DecidableEq, Repr

/-- The `Message` struct, with the fields `main.cpp` reads and writes.  The
signal-to-noise ratio is a `float` that is only stored; it is kept as an
uninterpreted integer reading. -/
structure Message where
  type : MessageType
  messageId : Nat
  payloadLength : Nat
  payload : List Nat
  rssi : Int
  snr : Int
deriving DecidableEq, Repr

/-- The `Statistics` struct (`stats`). -/
structure Statistics where
  messagesSent : Nat
  messagesReceived : Nat
  messagesFailed : Nat
  retries : Nat
  totalRSSI : Int
  rssiCount : Nat
  startTime : Nat
deriving DecidableEq, Repr

/-- The `SensorData` struct filled by `parseSensorResponse`. -/
structure SensorData where
  sensorId : Nat
  value : Int
  unit : String
deriving DecidableEq, Repr

/-- The `Command` struct filled by `serialCmd.readCommand`. -/
structure Command where
  name : String
  arg1 : String
  arg2 : String
  arg3 : String
deriving DecidableEq, Repr

/-- Everything the node does that can be seen from outside, in program order. -/
inductive Event where
  | tx (bytes : List Nat) (length : Nat) (ok : Bool)
  | delay (ms : Nat)
  | dispatch (m : Message)
  | printError (text : String)
  | printInfo (text : String)
  | printAckReceived (msgId : Nat) (ok : Bool)
  | printSentMessage (kind : String) (text : String) (ok : Bool)
  | printReceivedMessage (m : Message) (text : List Nat)
  | printSensorData (d : SensorData)
  | printCommandExecution (cmdId : Nat) (name : String)
  | printHelp
  | printStats (s : Statistics)
deriving DecidableEq, Repr

/-- The private members of `LoRaComm`. -/
structure LoRaComm where
  lastRSSI : Int
  lastSNR : Int
deriving DecidableEq, Repr

/-- What the vendor `LoRa` object holds when `receivePacket` is called: the value
`LoRa.parsePacket()` returns, the bytes `LoRa.read()` will deliver while
`LoRa.available()` is non-zero, and the signal readings of that packet. -/
structure LoRaRx where
  parsePacket : Nat
  fifo : List Nat
  packetRssi : Int
  packetSnr : Int
deriving DecidableEq, Repr

/-- The serial line at one loop iteration: whether `serialCmd.available()`
holds and what `serialCmd.readCommand` delivers (`none` when it returns false). -/
structure SerialIn where
  available : Bool
  readCommand : Option Command
deriving DecidableEq, Repr

/-- The methods and constants of `MessageProtocol`, `DummySensors` and
`SerialCommands` that `main.cpp` uses.  An encoder gets the transmit buffer and
returns the length it reports, the buffer it leaves behind and the new private
state.  `decode` gets the buffer, the length and the `Message` it writes into,
and returns its verdict with the message it leaves behind. -/
structure Collaborators (σ : Type) where
  MSG_MAX_PACKET_SIZE : Nat
  ACK_OK : Nat
  ACK_ERROR : Nat
  SENSOR_TEMPERATURE : Nat
  SENSOR_HUMIDITY : Nat
  SENSOR_BATTERY : Nat
  SENSOR_PRESSURE : Nat
  CMD_LED_ON : Nat
  CMD_LED_OFF : Nat
  CMD_LED_TOGGLE : Nat
  encodeText : σ → String → List Nat → Nat × List Nat × σ
  encodeSensorRequest : σ → Nat → List Nat → Nat × List Nat × σ
  encodeCommand : σ → Nat → List Nat → Nat × List Nat × σ
  encodeAck : σ → Nat → Nat → List Nat → Nat × List Nat × σ
  encodeSensorResponse : σ → Nat → Int → String → List Nat → Nat × List Nat × σ
  decode : List Nat → Nat → Message → Bool × Message
  parseSensorResponse : List Nat → Nat → Option SensorData
  getCommandName : Nat → String
  getSensorName : Nat → String
  getSensorUnit : Nat → String
  readSensorById : σ → Nat → Int × σ
  clearStats : Statistics → Nat → Statistics

/-- The global variables of `main.cpp`, the clock and the event log. -/
structure Node (σ : Type) where
  currentState : State
  stats : Statistics
  pendingMessageId : Nat
  txTimestamp : Nat
  retryCount : Nat
  lastTxLength : Nat
  txBuffer : List Nat
  rxBuffer : List Nat
  lastRxMessage : Message
  loraComm : LoRaComm
  collab : σ
  clock : Nat
  sendCalls : Nat
  events : List Event

/-- The constant `ACK_TIMEOUT`. -/
def ACK_TIMEOUT : Nat := 2000

/-- The constant `MAX_RETRIES`. -/
def MAX_RETRIES : Nat := 3

/-- The table `RETRY_DELAYS`. -/
def RETRY_DELAYS : List Nat := [500, 1000, 2000]

/-- The initial values of the globals; the two buffers are zero-initialised
arrays of `MSG_MAX_PACKET_SIZE` bytes. -/
def initNode {σ : Type} (C : Collaborators σ) (s : σ) : Node σ :=
  { currentState := State.STATE_IDLE
    stats := ⟨0, 0, 0, 0, 0, 0, 0⟩
    pendingMessageId := 0
    txTimestamp := 0
    retryCount := 0
    lastTxLength := 0
    txBuffer := List.replicate C.MSG_MAX_PACKET_SIZE 0
    rxBuffer := List.replicate C.MSG_MAX_PACKET_SIZE 0
    lastRxMessage := ⟨MessageType.MSG_OTHER 0, 0, 0, [], 0, 0⟩
    loraComm := ⟨0, 0⟩
    collab := s
    clock := 0
    sendCalls := 0
    events := [] }

/-! ## Arduino primitives and `LoRaComm` -/

variable {σ : Type}

/-- The Arduino `millis()`: the clock as an `unsigned long`. -/
def millis (n : Node σ) : Nat := n.clock % 4294967296

/-- The Arduino `delay(ms)`. -/
def delay (ms : Nat) (n : Node σ) : Node σ :=
  { n with clock := n.clock + ms, events := n.events ++ [Event.delay ms] }

/-- A call of `serialCmd.printError`. -/
def printError (text : String) (n : Node σ) : Node σ :=
  { n with events := n.events ++ [Event.printError text] }

/-- A call of `serialCmd.printInfo`. -/
def printInfo (text : String) (n : Node σ) : Node σ :=
  { n with events := n.events ++ [Event.printInfo text] }

/-- The method `LoRaComm::sendPacket`: a length of 0 or above 255 is refused,
otherwise the packet goes to the radio and `LoRa.endPacket()` decides. -/
def sendPacket (air : Nat → Bool) (n : Node σ) (data : List Nat) (length : Nat) :
    Bool × Node σ :=
  if length = 0 ∨ length > 255 then
    (false, { n with events := n.events ++ [Event.tx (data.take length) length false],
                     sendCalls := n.sendCalls + 1 })
  else
    (air n.sendCalls,
      { n with events := n.events ++ [Event.tx (data.take length) length (air n.sendCalls)],
               sendCalls := n.sendCalls + 1 })

/-- The `while (LoRa.available() && bytesRead < maxLength)` loop of
`LoRaComm::receivePacket`: returns `bytesRead` and the buffer. -/
def readLoop : List Nat → List Nat → Nat → Nat → Nat × List Nat
  | [], buffer, bytesRead, _ => (bytesRead, buffer)
  | b :: rest, buffer, bytesRead, maxLength =>
    if bytesRead < maxLength then
      readLoop rest (buffer.set bytesRead b) (bytesRead + 1) maxLength
    else (bytesRead, buffer)

/-- The method `LoRaComm::receivePacket`: returns the byte count, the buffer and
the object with its stored signal readings. -/
def receivePacket (rx : LoRaRx) (lc : LoRaComm) (buffer : List Nat) (maxLength : Nat) :
    Nat × List Nat × LoRaComm :=
  if rx.parsePacket = 0 then (0, buffer, lc)
  else
    let r := readLoop rx.fifo buffer 0 maxLength
    (r.1, r.2, { lastRSSI := rx.packetRssi, lastSNR := rx.packetSnr })

/-! ## `main.cpp` -/

/-- The array read `payload[i]`. -/
def byteAt (payload : List Nat) (i : Nat) : Nat := payload.getD i 0

/-- The local `ackedMsgId` of `handleRxProcessing`, the id an ACK message
acknowledges: `(payload[0] << 8) | payload[1]` as a `uint16_t`. -/
def ackedMsgId (m : Message) : Nat :=
  ((byteAt m.payload 0 <<< 8) ||| byteAt m.payload 1) % 65536

/-- The function `sendAck`: encode an ACK into `txBuffer` and, when the encoder
reports a length, hand it to `sendPacket` (whose result is not looked at). -/
def sendAck (C : Collaborators σ) (air : Nat → Bool) (msgId status : Nat)
    (n : Node σ) : Node σ :=
  let e := C.encodeAck n.collab msgId status n.txBuffer
  let n1 := { n with txBuffer := e.2.1, collab := e.2.2 }
  if e.1 > 0 then (sendPacket air n1 n1.txBuffer e.1).2 else n1

/-- The `switch (lastRxMessage.type)` of `handleRxProcessing`. -/
def dispatchByType (C : Collaborators σ) (air : Nat → Bool) (n : Node σ) : Node σ :=
  let m := n.lastRxMessage
  match m.type with
  | MessageType.MSG_TEXT =>
    sendAck C air m.messageId C.ACK_OK
      { n with events := n.events ++
          [Event.printReceivedMessage m (m.payload.take m.payloadLength)] }
  | MessageType.MSG_SENSOR_REQUEST =>
    if m.payloadLength ≥ 1 then
      let sensorId := byteAt m.payload 0
      let a := delay 100 (sendAck C air m.messageId C.ACK_OK n)
      let v := C.readSensorById a.collab sensorId
      let e := C.encodeSensorResponse v.2 sensorId v.1 (C.getSensorUnit sensorId) a.txBuffer
      let c := { a with txBuffer := e.2.1, collab := e.2.2 }
      if e.1 > 0 then (sendPacket air c c.txBuffer e.1).2 else c
    else n
  | MessageType.MSG_SENSOR_RESPONSE =>
    match C.parseSensorResponse m.payload m.payloadLength with
    | some data =>
      sendAck C air m.messageId C.ACK_OK
        { n with events := n.events ++ [Event.printSensorData data] }
    | none =>
      sendAck C air m.messageId C.ACK_ERROR
        (printError "Failed to parse sensor response" n)
  | MessageType.MSG_COMMAND =>
    if m.payloadLength ≥ 1 then
      let cmdId := byteAt m.payload 0
      sendAck C air m.messageId C.ACK_OK
        { n with events := n.events ++
            [Event.printCommandExecution cmdId (C.getCommandName cmdId)] }
    else n
  | MessageType.MSG_ACK =>
    if m.payloadLength ≥ 3 then
      let status := byteAt m.payload 2
      if ackedMsgId m = n.pendingMessageId then
        { n with events := n.events ++
                   [Event.printAckReceived (ackedMsgId m) (decide (status = C.ACK_OK))],
                 pendingMessageId := 0,
                 currentState := State.STATE_IDLE }
      else n
    else n
  | MessageType.MSG_NACK => printError "Received NACK" n
  | MessageType.MSG_OTHER _ => printError "Unknown message type" n

/-- The function `handleRxProcessing`: dispatch `lastRxMessage`, then return to
idle when the state is still `STATE_RX_PROCESSING`. -/
def handleRxProcessing (C : Collaborators σ) (air : Nat → Bool) (n : Node σ) : Node σ :=
  let n1 := dispatchByType C air
    { n with events := n.events ++ [Event.dispatch n.lastRxMessage] }
  if n1.currentState = State.STATE_RX_PROCESSING then
    { n1 with currentState := State.STATE_IDLE }
  else n1

/-- The function `handleError`. -/
def handleError (n : Node σ) : Node σ :=
  { printError "System error, resetting to idle" n with currentState := State.STATE_IDLE }

/-- The function `handleIdle`. -/
def handleIdle (n : Node σ) : Node σ := n

/-- The function `retryMessage`. -/
def retryMessage (air : Nat → Bool) (n : Node σ) : Bool × Node σ :=
  if n.pendingMessageId = 0 ∨ n.lastTxLength = 0 then (false, n)
  else
    let n1 := { n with retryCount := (n.retryCount + 1) % 256,
                       stats := { n.stats with retries := n.stats.retries + 1 } }
    let r := sendPacket air n1 n1.txBuffer n1.lastTxLength
    if r.1 then
      (true, { printInfo "Message retransmitted" r.2 with txTimestamp := millis r.2 })
    else
      (false, printError "Retry transmission failed" r.2)

/-- The value `millis() - txTimestamp` in `unsigned long` arithmetic. -/
def elapsed (n : Node σ) : Nat :=
  (millis n + 4294967296 - n.txTimestamp) % 4294967296

/-- The function `handleTxWaitAck`. -/
def handleTxWaitAck (air : Nat → Bool) (n : Node σ) : Node σ :=
  if elapsed n ≥ ACK_TIMEOUT then
    if n.retryCount < MAX_RETRIES then
      let n1 := printInfo "ACK timeout, retrying..." n
      (retryMessage air (delay (RETRY_DELAYS.getD n1.retryCount 0) n1)).2
    else
      let n1 := printError "Max retries exceeded, message failed" n
      { n1 with stats := { n1.stats with messagesFailed := n1.stats.messagesFailed + 1 },
                pendingMessageId := 0,
                currentState := State.STATE_IDLE }
  else n

/-- The function `sendTextMessage`. -/
def sendTextMessage (C : Collaborators σ) (air : Nat → Bool) (text : String)
    (n : Node σ) : Node σ :=
  let e := C.encodeText n.collab text n.txBuffer
  let n1 := { n with txBuffer := e.2.1, collab := e.2.2 }
  if e.1 = 0 then printError "Failed to encode message" n1
  else
    let d := C.decode n1.txBuffer e.1 ⟨MessageType.MSG_OTHER 0, 0, 0, [], 0, 0⟩
    let n2 := { n1 with pendingMessageId := if d.1 then d.2.messageId else n1.pendingMessageId }
    let n3 := { n2 with lastTxLength := e.1 }
    let r := sendPacket air n3 n3.txBuffer e.1
    if r.1 then
      let n4 := { r.2 with events := r.2.events ++ [Event.printSentMessage "TEXT" text true],
                           stats := { r.2.stats with messagesSent := r.2.stats.messagesSent + 1 } }
      { n4 with txTimestamp := millis n4, retryCount := 0,
                currentState := State.STATE_TX_WAIT_ACK }
    else
      { r.2 with events := r.2.events ++ [Event.printSentMessage "TEXT" text false],
                 stats := { r.2.stats with messagesFailed := r.2.stats.messagesFailed + 1 } }

/-- The function `sendSensorRequest`. -/
def sendSensorRequest (C : Collaborators σ) (air : Nat → Bool) (sensorId : Nat)
    (n : Node σ) : Node σ :=
  let e := C.encodeSensorRequest n.collab sensorId n.txBuffer
  let n1 := { n with txBuffer := e.2.1, collab := e.2.2 }
  if e.1 = 0 then printError "Failed to encode sensor request" n1
  else
    let d := C.decode n1.txBuffer e.1 ⟨MessageType.MSG_OTHER 0, 0, 0, [], 0, 0⟩
    let n2 := { n1 with pendingMessageId := if d.1 then d.2.messageId else n1.pendingMessageId }
    let n3 := { n2 with lastTxLength := e.1 }
    let sensorName := C.getSensorName sensorId
    let r := sendPacket air n3 n3.txBuffer e.1
    if r.1 then
      let n4 := { r.2 with events := r.2.events ++
                             [Event.printSentMessage "SENSOR_REQ" sensorName true],
                           stats := { r.2.stats with messagesSent := r.2.stats.messagesSent + 1 } }
      { n4 with txTimestamp := millis n4, retryCount := 0,
                currentState := State.STATE_TX_WAIT_ACK }
    else
      { r.2 with events := r.2.events ++
                   [Event.printSentMessage "SENSOR_REQ" sensorName false],
                 stats := { r.2.stats with messagesFailed := r.2.stats.messagesFailed + 1 } }

/-- The function `sendCommand`. -/
def sendCommand (C : Collaborators σ) (air : Nat → Bool) (cmdId : Nat)
    (n : Node σ) : Node σ :=
  let e := C.encodeCommand n.collab cmdId n.txBuffer
  let n1 := { n with txBuffer := e.2.1, collab := e.2.2 }
  if e.1 = 0 then printError "Failed to encode command" n1
  else
    let d := C.decode n1.txBuffer e.1 ⟨MessageType.MSG_OTHER 0, 0, 0, [], 0, 0⟩
    let n2 := { n1 with pendingMessageId := if d.1 then d.2.messageId else n1.pendingMessageId }
    let n3 := { n2 with lastTxLength := e.1 }
    let cmdName := C.getCommandName cmdId
    let r := sendPacket air n3 n3.txBuffer e.1
    if r.1 then
      let n4 := { r.2 with events := r.2.events ++
                             [Event.printSentMessage "COMMAND" cmdName true],
                           stats := { r.2.stats with messagesSent := r.2.stats.messagesSent + 1 } }
      { n4 with txTimestamp := millis n4, retryCount := 0,
                currentState := State.STATE_TX_WAIT_ACK }
    else
      { r.2 with events := r.2.events ++
                   [Event.printSentMessage "COMMAND" cmdName false],
                 stats := { r.2.stats with messagesFailed := r.2.stats.messagesFailed + 1 } }

/-- The text `send` transmits: `arg1`, then `arg2` and `arg3` when non-empty,
separated by blanks. -/
def fullText (cmd : Command) : String :=
  let t1 := cmd.arg1
  let t2 := if cmd.arg2.length > 0 then t1 ++ (" " ++ cmd.arg2) else t1
  if cmd.arg3.length > 0 then t2 ++ (" " ++ cmd.arg3) else t2

/-- The function `processSerialCommand`. -/
def processSerialCommand (C : Collaborators σ) (air : Nat → Bool) (inp : SerialIn)
    (n : Node σ) : Node σ :=
  match inp.readCommand with
  | none => n
  | some cmd =>
    if cmd.name = "help" then { n with events := n.events ++ [Event.printHelp] }
    else if cmd.name = "send" then
      if cmd.arg1.length > 0 then sendTextMessage C air (fullText cmd) n
      else printError "Usage: send <text>" n
    else if cmd.name = "request" then
      if cmd.arg1 = "temp" then sendSensorRequest C air C.SENSOR_TEMPERATURE n
      else if cmd.arg1 = "humid" then sendSensorRequest C air C.SENSOR_HUMIDITY n
      else if cmd.arg1 = "bat" then sendSensorRequest C air C.SENSOR_BATTERY n
      else if cmd.arg1 = "pressure" then sendSensorRequest C air C.SENSOR_PRESSURE n
      else printError "Usage: request [temp|humid|bat|pressure]" n
    else if cmd.name = "cmd" then
      if cmd.arg1 = "led" ∧ cmd.arg2 = "on" then sendCommand C air C.CMD_LED_ON n
      else if cmd.arg1 = "led" ∧ cmd.arg2 = "off" then sendCommand C air C.CMD_LED_OFF n
      else if cmd.arg1 = "led" ∧ cmd.arg2 = "toggle" then sendCommand C air C.CMD_LED_TOGGLE n
      else printError "Usage: cmd led [on|off|toggle]" n
    else if cmd.name = "stats" then
      { n with events := n.events ++ [Event.printStats n.stats] }
    else if cmd.name = "clear" then
      { n with stats := C.clearStats n.stats (millis n) }
    else printError "Unknown command. Type 'help' for list." n

/-- The function `checkLoRaReceive`. -/
def checkLoRaReceive (C : Collaborators σ) (air : Nat → Bool) (rx : LoRaRx)
    (n : Node σ) : Node σ :=
  let r := receivePacket rx n.loraComm n.rxBuffer C.MSG_MAX_PACKET_SIZE
  let n0 := { n with rxBuffer := r.2.1, loraComm := r.2.2 }
  if r.1 > 0 then
    let n1 := { n0 with stats :=
      { n0.stats with messagesReceived := n0.stats.messagesReceived + 1,
                      totalRSSI := n0.stats.totalRSSI + n0.loraComm.lastRSSI,
                      rssiCount := n0.stats.rssiCount + 1 } }
    let d := C.decode n1.rxBuffer r.1 n1.lastRxMessage
    if d.1 then
      let n2 := { n1 with lastRxMessage :=
        { d.2 with rssi := n1.loraComm.lastRSSI, snr := n1.loraComm.lastSNR } }
      if n2.currentState = State.STATE_TX_WAIT_ACK ∧
          n2.lastRxMessage.type = MessageType.MSG_ACK then
        handleRxProcessing C air n2
      else if n2.currentState = State.STATE_IDLE then
        { n2 with currentState := State.STATE_RX_PROCESSING }
      else n2
    else
      printError "Failed to decode packet (checksum error?)" { n1 with lastRxMessage := d.2 }
  else n0

/-- What one pass of `loop` finds outside the node: the milliseconds that went by
since the previous pass ended, the radio and the serial line. -/
structure LoopInput where
  passed : Nat
  radio : LoRaRx
  serial : SerialIn
deriving DecidableEq, Repr

/-- The `switch (currentState)` of `loop`. -/
def stateHandler (C : Collaborators σ) (air : Nat → Bool) (n : Node σ) : Node σ :=
  match n.currentState with
  | State.STATE_IDLE => handleIdle n
  | State.STATE_TX_WAIT_ACK => handleTxWaitAck air n
  | State.STATE_RX_PROCESSING => handleRxProcessing C air n
  | State.STATE_ERROR => handleError n

/-- The function `loop`: receive check, operator command when idle, state
handler, `delay(10)`. -/
def loop (C : Collaborators σ) (air : Nat → Bool) (inp : LoopInput) (n : Node σ) : Node σ :=
  let n1 := checkLoRaReceive C air inp.radio { n with clock := n.clock + inp.passed }
  let n2 := if n1.currentState = State.STATE_IDLE ∧ inp.serial.available = true then
      processSerialCommand C air inp.serial n1
    else n1
  delay 10 (stateHandler C air n2)

/-! ## Observations -/

/-- The `sendPacket` calls among a list of events, in order, each with the bytes
handed over, the length and the result. -/
def txOf : List Event → List (List Nat × Nat × Bool)
  | [] => []
  | Event.tx b l ok :: rest => (b, l, ok) :: txOf rest
  | _ :: rest => txOf rest

/-- Every `sendPacket` call the node has made so far. -/
def transmissions (n : Node σ) : List (List Nat × Nat × Bool) := txOf n.events

/-- The messages `handleRxProcessing` has been run on so far. -/
def dispatchedOf : List Event → List Message
  | [] => []
  | Event.dispatch m :: rest => m :: dispatchedOf rest
  | _ :: rest => dispatchedOf rest

/-- The delivery successes reported so far (`serialCmd.printAckReceived`). -/
def ackReportsOf : List Event → List Nat
  | [] => []
  | Event.printAckReceived i _ :: rest => i :: ackReportsOf rest
  | _ :: rest => ackReportsOf rest

/-- The delays made so far (`delay(ms)`). -/
def delaysOf : List Event → List Nat
  | [] => []
  | Event.delay ms :: rest => ms :: delaysOf rest
  | _ :: rest => delaysOf rest

/-- The message `checkLoRaReceive` decodes from the radio, with the signal readings
stored into it: `none` when no packet is there or when `decode` fails. -/
def inbound (C : Collaborators σ) (rx : LoRaRx) (n : Node σ) : Option Message :=
  if (receivePacket rx n.loraComm n.rxBuffer C.MSG_MAX_PACKET_SIZE).1 > 0 then
    if (C.decode (receivePacket rx n.loraComm n.rxBuffer C.MSG_MAX_PACKET_SIZE).2.1
          (receivePacket rx n.loraComm n.rxBuffer C.MSG_MAX_PACKET_SIZE).1 n.lastRxMessage).1 then
      some { (C.decode (receivePacket rx n.loraComm n.rxBuffer C.MSG_MAX_PACKET_SIZE).2.1
          (receivePacket rx n.loraComm n.rxBuffer C.MSG_MAX_PACKET_SIZE).1 n.lastRxMessage).2 with
        rssi := (receivePacket rx n.loraComm n.rxBuffer C.MSG_MAX_PACKET_SIZE).2.2.lastRSSI,
        snr := (receivePacket rx n.loraComm n.rxBuffer C.MSG_MAX_PACKET_SIZE).2.2.lastSNR }
    else none
  else none

/-- A packet is there and `decode` fails on it. -/
def decodeFails (C : Collaborators σ) (rx : LoRaRx) (n : Node σ) : Prop :=
  (receivePacket rx n.loraComm n.rxBuffer C.MSG_MAX_PACKET_SIZE).1 > 0 ∧
  (C.decode (receivePacket rx n.loraComm n.rxBuffer C.MSG_MAX_PACKET_SIZE).2.1
    (receivePacket rx n.loraComm n.rxBuffer C.MSG_MAX_PACKET_SIZE).1 n.lastRxMessage).1 = false

instance (C : Collaborators σ) (rx : LoRaRx) (n : Node σ) : Decidable (decodeFails C rx n) := by
  unfold decodeFails
  exact inferInstance

/-- The node once `checkLoRaReceive` has read a packet, counted it and stored the
decoded message `m`. -/
def stored (C : Collaborators σ) (rx : LoRaRx) (n : Node σ) (m : Message) : Node σ :=
  { n with
    rxBuffer := (receivePacket rx n.loraComm n.rxBuffer C.MSG_MAX_PACKET_SIZE).2.1
    loraComm := (receivePacket rx n.loraComm n.rxBuffer C.MSG_MAX_PACKET_SIZE).2.2
    stats :=
      { n.stats with
        messagesReceived := n.stats.messagesReceived + 1
        totalRSSI := n.stats.totalRSSI +
          (receivePacket rx n.loraComm n.rxBuffer C.MSG_MAX_PACKET_SIZE).2.2.lastRSSI
        rssiCount := n.stats.rssiCount + 1 }
    lastRxMessage := m }

/-- What `encodeSensorResponse` returns when `handleRxProcessing` answers the sensor
request in `lastRxMessage`: it runs on the buffer and the private state that
`encodeAck` and `readSensorById` have left behind. -/
def sensorResponseOf (C : Collaborators σ) (n : Node σ) : Nat × List Nat × σ :=
  C.encodeSensorResponse
    (C.readSensorById
      (C.encodeAck n.collab n.lastRxMessage.messageId C.ACK_OK n.txBuffer).2.2
      (byteAt n.lastRxMessage.payload 0)).2
    (byteAt n.lastRxMessage.payload 0)
    (C.readSensorById
      (C.encodeAck n.collab n.lastRxMessage.messageId C.ACK_OK n.txBuffer).2.2
      (byteAt n.lastRxMessage.payload 0)).1
    (C.getSensorUnit (byteAt n.lastRxMessage.payload 0))
    (C.encodeAck n.collab n.lastRxMessage.messageId C.ACK_OK n.txBuffer).2.1

/-- The part of a node that the send / retry protocol reads and writes: everything
except the statistics, the receive buffer, the last received message, the
signal readings and the reports. -/
structure ProtocolView (σ : Type) where
  currentState : State
  pendingMessageId : Nat
  txTimestamp : Nat
  retryCount : Nat
  lastTxLength : Nat
  txBuffer : List Nat
  collab : σ
  clock : Nat
  sendCalls : Nat
  transmissions : List (List Nat × Nat × Bool)
  dispatched : List Message

/-- The protocol view of a node. -/
def view (n : Node σ) : ProtocolView σ :=
  { currentState := n.currentState
    pendingMessageId := n.pendingMessageId
    txTimestamp := n.txTimestamp
    retryCount := n.retryCount
    lastTxLength := n.lastTxLength
    txBuffer := n.txBuffer
    collab := n.collab
    clock := n.clock
    sendCalls := n.sendCalls
    transmissions := txOf n.events
    dispatched := dispatchedOf n.events }

/-- Whether a retransmission of the stored packet goes out. -/
def resendOk (air : Nat → Bool) (n : Node σ) : Bool :=
  decide (n.lastTxLength ≤ 255) && air n.sendCalls

/-- A node that has just (re)transmitted its pending message for the `k`-th time
after the original and armed the timer. -/
def Armed (n : Node σ) (k : Nat) : Prop :=
  n.currentState = State.STATE_TX_WAIT_ACK ∧ n.txTimestamp = millis n ∧ n.retryCount = k ∧
  n.pendingMessageId ≠ 0 ∧ n.lastTxLength ≠ 0 ∧ n.lastTxLength ≤ 255

/-- The three ways an operator submits a message. -/
inductive Submit where
  | text (t : String)
  | sensorRequest (sensorId : Nat)
  | command (cmdId : Nat)
deriving DecidableEq, Repr

/-- A submit: `sendTextMessage`, `sendSensorRequest` or `sendCommand`. -/
def submit (C : Collaborators σ) (air : Nat → Bool) : Submit → Node σ → Node σ
  | Submit.text t, n => sendTextMessage C air t n
  | Submit.sensorRequest i, n => sendSensorRequest C air i n
  | Submit.command c, n => sendCommand C air c n

/-- What the encoder called by a submit returns: length, buffer, private state. -/
def encodeOf (C : Collaborators σ) : Submit → Node σ → Nat × List Nat × σ
  | Submit.text t, n => C.encodeText n.collab t n.txBuffer
  | Submit.sensorRequest i, n => C.encodeSensorRequest n.collab i n.txBuffer
  | Submit.command c, n => C.encodeCommand n.collab c n.txBuffer

/-- The `Message` local variable a submit hands to `decode`. -/
def blankMessage : Message := ⟨MessageType.MSG_OTHER 0, 0, 0, [], 0, 0⟩

/-- Let the clock run on to the instant the ACK timeout expires (not at all when
it has expired already). -/
def awaitTimeout (n : Node σ) : Node σ :=
  { n with clock := n.clock + (ACK_TIMEOUT - elapsed n) }

/-- A tick of `handleTxWaitAck` evaluated the instant the timeout elapses. -/
def timeoutTick (air : Nat → Bool) (n : Node σ) : Node σ :=
  handleTxWaitAck air (awaitTimeout n)

/-- The first `k` ticks, each at the instant the timeout elapses, stopping when the
node leaves `STATE_TX_WAIT_ACK`. -/
def timeoutTicks (air : Nat → Bool) : Nat → Node σ → Node σ
  | 0, n => n
  | k + 1, n =>
    if n.currentState = State.STATE_TX_WAIT_ACK then timeoutTicks air k (timeoutTick air n)
    else n

/-- A loop input with no packet on the radio and nothing on the serial line. -/
def quiet (passed : Nat) : LoopInput :=
  { passed := passed
    radio := { parsePacket := 0, fifo := [], packetRssi := 0, packetSnr := 0 }
    serial := { available := false, readCommand := none } }

/-- Successive passes of `loop`, one per input. -/
def runLoop (C : Collaborators σ) (air : Nat → Bool) : List LoopInput → Node σ → Node σ
  | [], n => n
  | i :: rest, n => runLoop C air rest (loop C air i n)

/-! ## A reference instance of the collaborators

The theorems below hold for every `Collaborators`.  The instance here gives them
a concrete codec to be run on. -/

/-- Modelled from the spec: the one-byte integrity value over header and payload
of `MessageProtocol`, whose source is not available ("a simple additive/XOR
integrity check"); the exclusive-or of the bytes is taken. -/
def refChecksum (bytes : List Nat) : Nat := bytes.foldl Nat.xor 0

/-- Modelled from the spec: the type byte of a message kind in `MessageProtocol.h`,
which is not available.  The spec fixes `TEXT = 0x01`; the other codes are
numbered on from there. -/
def refTypeCode : MessageType → Nat
  | MessageType.MSG_TEXT => 1
  | MessageType.MSG_SENSOR_REQUEST => 2
  | MessageType.MSG_SENSOR_RESPONSE => 3
  | MessageType.MSG_COMMAND => 4
  | MessageType.MSG_ACK => 5
  | MessageType.MSG_NACK => 6
  | MessageType.MSG_OTHER c => c

/-- Modelled from the spec: the inverse of `refTypeCode` (`MessageProtocol.h` is
not available). -/
def refTypeOf (c : Nat) : MessageType :=
  if c = 1 then MessageType.MSG_TEXT
  else if c = 2 then MessageType.MSG_SENSOR_REQUEST
  else if c = 3 then MessageType.MSG_SENSOR_RESPONSE
  else if c = 4 then MessageType.MSG_COMMAND
  else if c = 5 then MessageType.MSG_ACK
  else if c = 6 then MessageType.MSG_NACK
  else MessageType.MSG_OTHER c

/-- Modelled from the spec: the wire packet of `MessageProtocol` (not available),
`type(1) | messageId(2, big-endian) | payloadLength(1) | payload | checksum(1)`. -/
def refFrame (t : MessageType) (msgId : Nat) (payload : List Nat) : List Nat :=
  [refTypeCode t, msgId / 256 % 256, msgId % 256, payload.length] ++ payload ++
    [refChecksum ([refTypeCode t, msgId / 256 % 256, msgId % 256, payload.length] ++ payload)]

/-- Modelled from the spec: an encoder of `MessageProtocol` (not available) writing
a packet into the buffer; it fails with length 0 when the payload exceeds the
maximum, here 250 bytes so that a packet fits the 255 bytes of the transport. -/
def refWrite (t : MessageType) (msgId : Nat) (payload : List Nat) (buffer : List Nat) :
    Nat × List Nat :=
  if payload.length > 250 then (0, buffer)
  else ((refFrame t msgId payload).length,
        refFrame t msgId payload ++ buffer.drop (refFrame t msgId payload).length)

/-- Modelled from the spec: an encoder of `MessageProtocol` (not available) for a
message the node originates: the id is the per-node counter, which is then
incremented with 16-bit wraparound. -/
def refEncodeNew (t : MessageType) (payload : List Nat) (counter : Nat)
    (buffer : List Nat) : Nat × List Nat × Nat :=
  ((refWrite t counter payload buffer).1, (refWrite t counter payload buffer).2,
    (counter + 1) % 65536)

/-- Modelled from the spec: `MessageProtocol::decode` (not available): the
declared length must match the buffer size and the checksum must match;
otherwise the message is left as it was. -/
def refDecode (buffer : List Nat) (length : Nat) (old : Message) : Bool × Message :=
  let bytes := buffer.take length
  let plen := bytes.getD 3 0
  if length < 5 ∨ bytes.length ≠ length ∨ plen + 5 ≠ length then (false, old)
  else if refChecksum (bytes.take (plen + 4)) ≠ bytes.getD (plen + 4) 0 then (false, old)
  else (true,
    { type := refTypeOf (bytes.getD 0 0)
      messageId := bytes.getD 1 0 * 256 + bytes.getD 2 0
      payloadLength := plen
      payload := (bytes.drop 4).take plen
      rssi := old.rssi
      snr := old.snr })

/-- Modelled from the spec: the collaborators `MessageProtocol`, `DummySensors`
and `SerialCommands`, none of which is available.  The private state is the
message-id counter; ACK payload is `acknowledged id (2) | status (1)`; sensor
readings are the constant 0; the numeric constants are numbered from 0 or 1. -/
def refCollab : Collaborators Nat :=
  { MSG_MAX_PACKET_SIZE := 255
    ACK_OK := 0
    ACK_ERROR := 1
    SENSOR_TEMPERATURE := 1
    SENSOR_HUMIDITY := 2
    SENSOR_BATTERY := 3
    SENSOR_PRESSURE := 4
    CMD_LED_ON := 1
    CMD_LED_OFF := 2
    CMD_LED_TOGGLE := 3
    encodeText := fun s text buf =>
      refEncodeNew MessageType.MSG_TEXT (text.data.map Char.toNat) s buf
    encodeSensorRequest := fun s sensorId buf =>
      refEncodeNew MessageType.MSG_SENSOR_REQUEST [sensorId] s buf
    encodeCommand := fun s cmdId buf =>
      refEncodeNew MessageType.MSG_COMMAND [cmdId] s buf
    encodeAck := fun s msgId status buf =>
      ((refWrite MessageType.MSG_ACK msgId [msgId / 256 % 256, msgId % 256, status] buf).1,
       (refWrite MessageType.MSG_ACK msgId [msgId / 256 % 256, msgId % 256, status] buf).2, s)
    encodeSensorResponse := fun s sensorId _ _ buf =>
      refEncodeNew MessageType.MSG_SENSOR_RESPONSE [sensorId, 0, 0, 0, 0] s buf
    decode := refDecode
    parseSensorResponse := fun payload len =>
      if len ≥ 5 then some ⟨payload.getD 0 0, 0, ""⟩ else none
    getCommandName := fun _ => "LED"
    getSensorName := fun _ => "sensor"
    getSensorUnit := fun _ => ""
    readSensorById := fun s _ => (0, s)
    clearStats := fun _ now => ⟨0, 0, 0, 0, 0, 0, now⟩ }

/-- A radio on which every transmission succeeds. -/
def airOk : Nat → Bool := fun _ => true

/-- A radio on which every transmission fails. -/
def airDown : Nat → Bool := fun _ => false

/-- A radio delivering the packet `bytes` with signal strength -60. -/
def rxOf (bytes : List Nat) : LoRaRx :=
  { parsePacket := bytes.length, fifo := bytes, packetRssi := -60, packetSnr := 9 }

/-- A radio with no packet. -/
def rxNone : LoRaRx := { parsePacket := 0, fifo := [], packetRssi := 0, packetSnr := 0 }

/-- A serial line with nothing typed. -/
def serialNone : SerialIn := { available := false, readCommand := none }

/-- A radio on which only the first transmission succeeds. -/
def airOnce : Nat → Bool := fun k => decide (k = 0)

/-- The reference node after the operator typed `send hi` at start-up with the
message counter at 7: it awaits the ACK for message 7. -/
def exAwaiting7 : Node Nat :=
  submit refCollab airOk (Submit.text "hi") (initNode refCollab 7)

/-- The node `exAwaiting7` on a radio that fails after the first transmission. -/
def exAwaiting7Once : Node Nat :=
  submit refCollab airOnce (Submit.text "hi") (initNode refCollab 7)

/-- The reference node after the operator typed `send hi` with the message
counter at 0: the message in flight carries id 0. -/
def exAwaiting0 : Node Nat :=
  submit refCollab airOk (Submit.text "hi") (initNode refCollab 0)

/-- The node `exAwaiting7` after its first timeout tick: one retry made. -/
def exRetried7 : Node Nat := handleTxWaitAck airOk (awaitTimeout exAwaiting7)

/-- A radio delivering an ACK with status 0 for message `msgId`. -/
def ackFor (msgId : Nat) : LoRaRx :=
  rxOf (refFrame MessageType.MSG_ACK msgId [msgId / 256 % 256, msgId % 256, 0])

/-- A serial line on which the operator has typed `send yo`. -/
def serialSendYo : SerialIn :=
  { available := true, readCommand := some ⟨"send", "yo", "", ""⟩ }

/-- The start-up node after a `send hi` (message 7) that the radio refused. -/
def exRefused7 : Node Nat :=
  submit refCollab airDown (Submit.text "hi") (initNode refCollab 7)

/-! ## Invariants of the state machine -/

/-- What holds of the node between two passes of `loop`: the retry count is within
its bound, the state is idle or waiting for an ACK, and while waiting the stored
length is non-zero and a pending id of 0 goes with a retry count of 0. -/
def Sound (n : Node σ) : Prop :=
  n.retryCount ≤ MAX_RETRIES ∧
  (n.currentState = State.STATE_IDLE ∨ n.currentState = State.STATE_TX_WAIT_ACK) ∧
  (n.currentState = State.STATE_TX_WAIT_ACK →
    n.lastTxLength ≠ 0 ∧ (n.pendingMessageId = 0 → n.retryCount = 0))

/-- What holds of the node inside a pass of `loop`, before the state handler runs:
as `Sound`, but the state may also be `STATE_RX_PROCESSING`. -/
def SoundMid (n : Node σ) : Prop :=
  n.retryCount ≤ MAX_RETRIES ∧
  (n.currentState = State.STATE_IDLE ∨ n.currentState = State.STATE_RX_PROCESSING ∨
    (n.currentState = State.STATE_TX_WAIT_ACK ∧ n.lastTxLength ≠ 0 ∧
      (n.pendingMessageId = 0 → n.retryCount = 0)))

/-- The radio holds an ACK that the receive check would take for the pending
message: it decodes, has at least three payload bytes and acknowledges the
pending id. -/
def matchingAck (C : Collaborators σ) (rx : LoRaRx) (n : Node σ) : Bool :=
  match inbound C rx n with
  | some m =>
    decide (m.type = MessageType.MSG_ACK ∧ 3 ≤ m.payloadLength ∧
      ackedMsgId m = n.pendingMessageId)
  | none => false

/-- No pass of the run receives a matching ACK. -/
def neverAcked (C : Collaborators σ) (air : Nat → Bool) : List LoopInput → Node σ → Bool
  | [], _ => true
  | i :: rest, n => !matchingAck C i.radio n && neverAcked C air rest (loop C air i n)

/-- How often the delivery failure has been reported
(`serialCmd.printError("Max retries exceeded, message failed")`). -/
def deliveryFailuresOf : List Event → Nat
  | [] => 0
  | Event.printError text :: rest =>
    (if text = "Max retries exceeded, message failed" then 1 else 0) + deliveryFailuresOf rest
  | _ :: rest => deliveryFailuresOf rest

/-! ## `DualLoRaComm` -/

/-- The Arduino pin levels `LOW` and `HIGH`. -/
inductive Level where
  | LOW
  | HIGH
deriving DecidableEq, Repr

/-- The GPIO pins: the level each pin is driven to and the `digitalWrite` calls
made so far, in order. -/
structure Gpio where
  level : Int → Level
  writes : List (Int × Level)

/-- The Arduino `digitalWrite(pin, value)`. -/
def digitalWrite (pin : Int) (value : Level) (g : Gpio) : Gpio :=
  { level := fun q => if q = pin then value else g.level q
    writes := g.writes ++ [(pin, value)] }

/-- The constant `NUM_LORA_MODULES`. -/
def NUM_LORA_MODULES : Nat := 2

/-- The constant `MODULE_1`. -/
def MODULE_1 : Nat := 0

/-- The constant `MODULE_2`. -/
def MODULE_2 : Nat := 1

/-- The member `nssPins` of `DualLoRaComm`: the chip-select pin of each module.
The constructor fills it from the build flags `LORA1_NSS` and `LORA2_NSS`, which
are not among the sources. -/
structure DualLoRaComm where
  nssPins : Nat → Int

/-- The method `DualLoRaComm::selectModule`. -/
def selectModule (d : DualLoRaComm) (moduleIndex : Nat) (g : Gpio) : Gpio :=
  let g1 := digitalWrite (d.nssPins MODULE_1) Level.HIGH g
  let g2 := digitalWrite (d.nssPins MODULE_2) Level.HIGH g1
  if moduleIndex < NUM_LORA_MODULES then digitalWrite (d.nssPins moduleIndex) Level.LOW g2
  else g2

/-- A board with the two modules on pins 5 and 17. -/
def exBoard : DualLoRaComm := { nssPins := fun k => if k = 0 then 5 else 17 }

/-- Pins as they are after `begin()`: every pin high, nothing logged. -/
def exGpio : Gpio := { level := fun _ => Level.HIGH, writes := [] }

/-! ## Lemmas on the observations -/

theorem txOf_append (a b : List Event) : txOf (a ++ b) = txOf a ++ txOf b := by
  induction a with
  | nil => rfl
  | cons e rest ih => cases e <;> simp [txOf, ih]

theorem dispatchedOf_append (a b : List Event) :
    dispatchedOf (a ++ b) = dispatchedOf a ++ dispatchedOf b := by
  induction a with
  | nil => rfl
  | cons e rest ih => cases e <;> simp [dispatchedOf, ih]

theorem ackReportsOf_append (a b : List Event) :
    ackReportsOf (a ++ b) = ackReportsOf a ++ ackReportsOf b := by
  induction a with
  | nil => rfl
  | cons e rest ih => cases e <;> simp [ackReportsOf, ih]

theorem delaysOf_append (a b : List Event) :
    delaysOf (a ++ b) = delaysOf a ++ delaysOf b := by
  induction a with
  | nil => rfl
  | cons e rest ih => cases e <;> simp [delaysOf, ih]

/-- The result of `sendPacket`: the length is in range and the radio agrees. -/
theorem sendPacket_fst (air : Nat → Bool) (n : Node σ) (data : List Nat) (length : Nat) :
    (sendPacket air n data length).1 =
      (decide (length ≠ 0 ∧ length ≤ 255) && air n.sendCalls) := by
  unfold sendPacket
  split
  · rename_i h
    have : ¬ (length ≠ 0 ∧ length ≤ 255) := by omega
    simp [this]
  · rename_i h
    have : length ≠ 0 ∧ length ≤ 255 := by omega
    simp [this]

/-- The node after `sendPacket`: one more call, logged with its result. -/
theorem sendPacket_snd (air : Nat → Bool) (n : Node σ) (data : List Nat) (length : Nat) :
    (sendPacket air n data length).2 =
      { n with events := n.events ++
                 [Event.tx (data.take length) length (sendPacket air n data length).1],
               sendCalls := n.sendCalls + 1 } := by
  unfold sendPacket
  split <;> rfl

/-- A submit whose encoder reports a length and whose `sendPacket` succeeds:
the node it leaves behind, field by field. -/
theorem submit_sent (C : Collaborators σ) (air : Nat → Bool) (sub : Submit) (n : Node σ)
    (henc : (encodeOf C sub n).1 ≠ 0)
    (hsend : (sendPacket air n (encodeOf C sub n).2.1 (encodeOf C sub n).1).1 = true) :
    (submit C air sub n).currentState = State.STATE_TX_WAIT_ACK ∧
    (submit C air sub n).txBuffer = (encodeOf C sub n).2.1 ∧
    (submit C air sub n).lastTxLength = (encodeOf C sub n).1 ∧
    (submit C air sub n).retryCount = 0 ∧
    (submit C air sub n).txTimestamp = millis n ∧
    (submit C air sub n).clock = n.clock ∧
    (submit C air sub n).stats.messagesSent = n.stats.messagesSent + 1 ∧
    (submit C air sub n).stats.messagesFailed = n.stats.messagesFailed ∧
    (submit C air sub n).stats.retries = n.stats.retries ∧
    transmissions (submit C air sub n) = transmissions n ++
      [((encodeOf C sub n).2.1.take (encodeOf C sub n).1, (encodeOf C sub n).1, true)] ∧
    (submit C air sub n).pendingMessageId =
      (if (C.decode (encodeOf C sub n).2.1 (encodeOf C sub n).1 blankMessage).1 = true then
        (C.decode (encodeOf C sub n).2.1 (encodeOf C sub n).1 blankMessage).2.messageId
       else n.pendingMessageId) ∧
    (submit C air sub n).lastTxLength ≤ 255 ∧
    delaysOf (submit C air sub n).events = delaysOf n.events := by
  rw [sendPacket_fst] at hsend
  simp only [Bool.and_eq_true, decide_eq_true_eq] at hsend
  obtain ⟨⟨_, hlen⟩, hair⟩ := hsend
  cases sub <;>
  · simp only [encodeOf] at henc hlen
    simp [submit, sendTextMessage, sendSensorRequest, sendCommand, encodeOf, sendPacket_fst,
      sendPacket_snd, henc, hlen, hair, transmissions, txOf_append, txOf, millis, blankMessage,
      delaysOf_append, delaysOf]

/-! ## Lemmas on the timeout tick -/

/-- The retry branch of `handleTxWaitAck`, field by field: the timer is reset
only when the retransmission succeeded. -/
theorem handleTxWaitAck_retry (air : Nat → Bool) (n : Node σ)
    (hel : ACK_TIMEOUT ≤ elapsed n) (hrc : n.retryCount < MAX_RETRIES)
    (hp : n.pendingMessageId ≠ 0) (hl : n.lastTxLength ≠ 0) :
    handleTxWaitAck air n =
      { n with
        clock := n.clock + RETRY_DELAYS.getD n.retryCount 0
        retryCount := n.retryCount + 1
        stats := { n.stats with retries := n.stats.retries + 1 }
        sendCalls := n.sendCalls + 1
        txTimestamp :=
          if resendOk air n = true then
            (n.clock + RETRY_DELAYS.getD n.retryCount 0) % 4294967296
          else n.txTimestamp
        events := n.events ++
          [Event.printInfo "ACK timeout, retrying...",
           Event.delay (RETRY_DELAYS.getD n.retryCount 0),
           Event.tx (n.txBuffer.take n.lastTxLength) n.lastTxLength (resendOk air n),
           if resendOk air n = true then Event.printInfo "Message retransmitted"
           else Event.printError "Retry transmission failed"] } := by
  have hmod : (n.retryCount + 1) % 256 = n.retryCount + 1 := by
    unfold MAX_RETRIES at hrc
    omega
  unfold handleTxWaitAck
  rw [if_pos hel, if_pos hrc]
  cases hok : resendOk air n <;>
  · unfold resendOk at hok
    simp [retryMessage, delay, printInfo, printError, sendPacket_fst, sendPacket_snd, hp, hl,
      hmod, millis, hok]

/-- The exhausted branch of `handleTxWaitAck`. -/
theorem handleTxWaitAck_exhausted (air : Nat → Bool) (n : Node σ)
    (hel : ACK_TIMEOUT ≤ elapsed n) (hrc : ¬ n.retryCount < MAX_RETRIES) :
    handleTxWaitAck air n =
      { n with
        stats := { n.stats with messagesFailed := n.stats.messagesFailed + 1 }
        pendingMessageId := 0
        currentState := State.STATE_IDLE
        events := n.events ++ [Event.printError "Max retries exceeded, message failed"] } := by
  unfold handleTxWaitAck
  rw [if_pos hel, if_neg hrc]
  rfl

/-- Before the timeout `handleTxWaitAck` does nothing. -/
theorem handleTxWaitAck_early (air : Nat → Bool) (n : Node σ)
    (hel : ¬ ACK_TIMEOUT ≤ elapsed n) : handleTxWaitAck air n = n := by
  unfold handleTxWaitAck
  rw [if_neg hel]

/-- With nothing pending `retryMessage` returns at its guard, so the retry branch
of `handleTxWaitAck` only reports and sleeps. -/
theorem handleTxWaitAck_guarded (air : Nat → Bool) (n : Node σ)
    (hel : ACK_TIMEOUT ≤ elapsed n) (hrc : n.retryCount < MAX_RETRIES)
    (hp : n.pendingMessageId = 0 ∨ n.lastTxLength = 0) :
    handleTxWaitAck air n =
      { n with
        clock := n.clock + RETRY_DELAYS.getD n.retryCount 0
        events := n.events ++
          [Event.printInfo "ACK timeout, retrying...",
           Event.delay (RETRY_DELAYS.getD n.retryCount 0)] } := by
  unfold handleTxWaitAck
  rw [if_pos hel, if_pos hrc]
  simp [retryMessage, delay, printInfo, hp]

/-- At the instant the timeout elapses on a freshly armed timer, exactly
`ACK_TIMEOUT` has gone by. -/
theorem elapsed_awaitTimeout (n : Node σ) (h : n.txTimestamp = millis n) :
    elapsed (awaitTimeout n) = ACK_TIMEOUT ∧ (awaitTimeout n).clock = n.clock + ACK_TIMEOUT := by
  unfold awaitTimeout elapsed millis ACK_TIMEOUT
  unfold millis at h
  simp only [h]
  omega

/-- One timeout tick of an armed node on a radio that always succeeds, with retries
left: a retransmission after timeout and backoff, and the node is armed again. -/
theorem timeoutTick_armed (n : Node σ) (k : Nat) (h : Armed n k) (hk : k < MAX_RETRIES) :
    Armed (timeoutTick airOk n) (k + 1) ∧
    (timeoutTick airOk n).clock = n.clock + ACK_TIMEOUT + RETRY_DELAYS.getD k 0 ∧
    transmissions (timeoutTick airOk n) =
      transmissions n ++ [(n.txBuffer.take n.lastTxLength, n.lastTxLength, true)] ∧
    delaysOf (timeoutTick airOk n).events = delaysOf n.events ++ [RETRY_DELAYS.getD k 0] ∧
    (timeoutTick airOk n).txBuffer = n.txBuffer ∧
    (timeoutTick airOk n).lastTxLength = n.lastTxLength ∧
    (timeoutTick airOk n).stats.messagesFailed = n.stats.messagesFailed ∧
    (timeoutTick airOk n).stats.retries = n.stats.retries + 1 := by
  obtain ⟨hst, hts, hrc, hp, hl, hl255⟩ := h
  obtain ⟨hel, hclk⟩ := elapsed_awaitTimeout n hts
  have hok : resendOk airOk (awaitTimeout n) = true := by
    simp [resendOk, awaitTimeout, airOk, hl255]
  unfold timeoutTick
  rw [handleTxWaitAck_retry airOk (awaitTimeout n) (le_of_eq hel.symm)
    (by simpa [awaitTimeout, hrc] using hk) (by simpa [awaitTimeout] using hp)
    (by simpa [awaitTimeout] using hl)]
  have hsub : ACK_TIMEOUT - elapsed n = ACK_TIMEOUT := by
    simpa [awaitTimeout] using hclk
  simp only [hok, if_true]
  refine ⟨⟨?_, ?_, ?_, ?_, ?_, ?_⟩, ?_, ?_, ?_, ?_, ?_, ?_, ?_⟩ <;>
    simp [awaitTimeout, millis, hst, hrc, hp, hl, hl255, hsub, transmissions, txOf_append,
      txOf, delaysOf_append, delaysOf]

/-- One timeout tick of an armed node whose retries are used up: the failure is
reported and the node is idle. -/
theorem timeoutTick_exhausted (air : Nat → Bool) (n : Node σ) (h : Armed n MAX_RETRIES) :
    (timeoutTick air n).currentState = State.STATE_IDLE ∧
    (timeoutTick air n).pendingMessageId = 0 ∧
    (timeoutTick air n).clock = n.clock + ACK_TIMEOUT ∧
    (timeoutTick air n).events =
      n.events ++ [Event.printError "Max retries exceeded, message failed"] ∧
    (timeoutTick air n).stats.messagesFailed = n.stats.messagesFailed + 1 ∧
    (timeoutTick air n).stats.retries = n.stats.retries := by
  obtain ⟨hst, hts, hrc, hp, hl, hl255⟩ := h
  obtain ⟨hel, hclk⟩ := elapsed_awaitTimeout n hts
  unfold timeoutTick
  rw [handleTxWaitAck_exhausted air (awaitTimeout n) (le_of_eq hel.symm)
    (by simp [awaitTimeout, hrc])]
  have hsub : ACK_TIMEOUT - elapsed n = ACK_TIMEOUT := by
    simpa [awaitTimeout] using hclk
  simp [awaitTimeout, hsub]

/-- A submit that went out with a non-zero pending id leaves an armed node. -/
theorem submit_armed (C : Collaborators σ) (air : Nat → Bool) (sub : Submit) (n : Node σ)
    (henc : (encodeOf C sub n).1 ≠ 0)
    (hsend : (sendPacket air n (encodeOf C sub n).2.1 (encodeOf C sub n).1).1 = true)
    (hid : (submit C air sub n).pendingMessageId ≠ 0) :
    Armed (submit C air sub n) 0 := by
  obtain ⟨h1, _, h3, h4, h5, h6, _, _, _, _, _, h12, _⟩ := submit_sent C air sub n henc hsend
  refine ⟨h1, ?_, h4, hid, ?_, h12⟩
  · rw [h5]
    simp [millis, h6]
  · rw [h3]
    exact henc

/-! ## Lemmas on quiet loop passes -/

/-- A pass of `loop` with nothing on the radio, in `STATE_TX_WAIT_ACK`: the timeout
handler runs on the node as it is, then `delay(10)`. -/
theorem loop_quiet_tx (C : Collaborators σ) (air : Nat → Bool) (p : Nat) (n : Node σ)
    (hst : n.currentState = State.STATE_TX_WAIT_ACK) :
    loop C air (quiet p) n = delay 10 (handleTxWaitAck air { n with clock := n.clock + p }) := by
  simp [loop, quiet, checkLoRaReceive, receivePacket, stateHandler, hst]

/-- With pending id 0 or stored length 0, a quiet pass in `STATE_TX_WAIT_ACK` changes
neither state nor retry count nor statistics, and transmits nothing. -/
theorem loop_quiet_stuck (C : Collaborators σ) (air : Nat → Bool) (p : Nat) (n : Node σ)
    (hst : n.currentState = State.STATE_TX_WAIT_ACK)
    (hp : n.pendingMessageId = 0 ∨ n.lastTxLength = 0) (hrc : n.retryCount < MAX_RETRIES) :
    (loop C air (quiet p) n).currentState = State.STATE_TX_WAIT_ACK ∧
    (loop C air (quiet p) n).pendingMessageId = n.pendingMessageId ∧
    (loop C air (quiet p) n).lastTxLength = n.lastTxLength ∧
    (loop C air (quiet p) n).retryCount = n.retryCount ∧
    (loop C air (quiet p) n).txTimestamp = n.txTimestamp ∧
    (loop C air (quiet p) n).stats = n.stats ∧
    transmissions (loop C air (quiet p) n) = transmissions n := by
  rw [loop_quiet_tx C air p n hst]
  by_cases hel : ACK_TIMEOUT ≤ elapsed { n with clock := n.clock + p }
  · rw [handleTxWaitAck_guarded air _ hel hrc hp]
    simp [delay, hst, transmissions, txOf_append, txOf]
  · rw [handleTxWaitAck_early air _ hel]
    simp [delay, hst, transmissions, txOf_append, txOf]

/-- Any number of quiet passes leaves such a node where it is. -/
theorem runLoop_quiet_stuck (C : Collaborators σ) (air : Nat → Bool) (ps : List Nat) :
    ∀ n : Node σ, n.currentState = State.STATE_TX_WAIT_ACK →
      (n.pendingMessageId = 0 ∨ n.lastTxLength = 0) → n.retryCount < MAX_RETRIES →
      (runLoop C air (ps.map quiet) n).currentState = State.STATE_TX_WAIT_ACK ∧
      (runLoop C air (ps.map quiet) n).retryCount = n.retryCount ∧
      (runLoop C air (ps.map quiet) n).stats = n.stats ∧
      transmissions (runLoop C air (ps.map quiet) n) = transmissions n := by
  induction ps with
  | nil => intro n hst _ _; exact ⟨hst, rfl, rfl, rfl⟩
  | cons p rest ih =>
    intro n hst hp hrc
    obtain ⟨h1, h2, h3, h4, _, h6, h7⟩ := loop_quiet_stuck C air p n hst hp hrc
    have := ih (loop C air (quiet p) n) h1 (by rw [h2, h3]; exact hp) (by rw [h4]; exact hrc)
    simp only [List.map_cons, runLoop]
    rw [this.1, this.2.1, this.2.2.1, this.2.2.2, h4, h6, h7]
    exact ⟨rfl, rfl, rfl, rfl⟩

/-! ## Lemmas on the receive check and the dispatch -/

/-- The receive check on a packet that decodes to `m`. -/
theorem checkLoRaReceive_inbound (C : Collaborators σ) (air : Nat → Bool) (rx : LoRaRx)
    (n : Node σ) (m : Message) (h : inbound C rx n = some m) :
    checkLoRaReceive C air rx n =
      if n.currentState = State.STATE_TX_WAIT_ACK ∧ m.type = MessageType.MSG_ACK then
        handleRxProcessing C air (stored C rx n m)
      else if n.currentState = State.STATE_IDLE then
        { stored C rx n m with currentState := State.STATE_RX_PROCESSING }
      else stored C rx n m := by
  unfold inbound at h
  split at h
  · rename_i h1
    split at h
    · rename_i h2
      simp only [Option.some.injEq] at h
      subst h
      simp only [checkLoRaReceive, h1, h2, if_true, stored]
    · simp at h
  · simp at h

/-- The receive check on a packet that fails to decode: the packet is counted,
the error is reported, and nothing else. -/
theorem checkLoRaReceive_decodeFails (C : Collaborators σ) (air : Nat → Bool) (rx : LoRaRx)
    (n : Node σ) (h : decodeFails C rx n) :
    checkLoRaReceive C air rx n =
      { stored C rx n
          (C.decode (receivePacket rx n.loraComm n.rxBuffer C.MSG_MAX_PACKET_SIZE).2.1
            (receivePacket rx n.loraComm n.rxBuffer C.MSG_MAX_PACKET_SIZE).1 n.lastRxMessage).2 with
        events := n.events ++ [Event.printError "Failed to decode packet (checksum error?)"] } := by
  obtain ⟨h1, h2⟩ := h
  simp [checkLoRaReceive, h1, h2, stored, printError]

/-- The clock does not enter what is received. -/
theorem inbound_clock (C : Collaborators σ) (rx : LoRaRx) (n : Node σ) (c : Nat) :
    inbound C rx { n with clock := c } = inbound C rx n := rfl

/-- Dispatch of an ACK for the pending message. -/
theorem handleRxProcessing_ack_match (C : Collaborators σ) (air : Nat → Bool) (n : Node σ)
    (hty : n.lastRxMessage.type = MessageType.MSG_ACK) (hlen : 3 ≤ n.lastRxMessage.payloadLength)
    (hid : ackedMsgId n.lastRxMessage = n.pendingMessageId) :
    handleRxProcessing C air n =
      { n with
        events := n.events ++
          [Event.dispatch n.lastRxMessage,
           Event.printAckReceived (ackedMsgId n.lastRxMessage)
             (decide (byteAt n.lastRxMessage.payload 2 = C.ACK_OK))]
        pendingMessageId := 0
        currentState := State.STATE_IDLE } := by
  simp [handleRxProcessing, dispatchByType, hty, hlen, hid]

/-- Dispatch of an ACK that is too short or for another message. -/
theorem handleRxProcessing_ack_other (C : Collaborators σ) (air : Nat → Bool) (n : Node σ)
    (hty : n.lastRxMessage.type = MessageType.MSG_ACK)
    (hno : n.lastRxMessage.payloadLength < 3 ∨ ackedMsgId n.lastRxMessage ≠ n.pendingMessageId) :
    handleRxProcessing C air n =
      { n with
        events := n.events ++ [Event.dispatch n.lastRxMessage]
        currentState :=
          if n.currentState = State.STATE_RX_PROCESSING then State.STATE_IDLE
          else n.currentState } := by
  rcases hno with h | h
  · have h3 : ¬ 3 ≤ n.lastRxMessage.payloadLength := by omega
    by_cases hs : n.currentState = State.STATE_RX_PROCESSING <;>
      simp [handleRxProcessing, dispatchByType, hty, h3, hs]
  · by_cases h3 : 3 ≤ n.lastRxMessage.payloadLength <;>
    by_cases hs : n.currentState = State.STATE_RX_PROCESSING <;>
      simp [handleRxProcessing, dispatchByType, hty, h3, hs, h]

/-- The node after `sendAck` when the encoder reports a length. -/
theorem sendAck_encoded (C : Collaborators σ) (air : Nat → Bool) (msgId status : Nat)
    (n : Node σ) (henc : (C.encodeAck n.collab msgId status n.txBuffer).1 ≠ 0) :
    sendAck C air msgId status n =
      { n with
        txBuffer := (C.encodeAck n.collab msgId status n.txBuffer).2.1
        collab := (C.encodeAck n.collab msgId status n.txBuffer).2.2
        sendCalls := n.sendCalls + 1
        events := n.events ++
          [Event.tx
            ((C.encodeAck n.collab msgId status n.txBuffer).2.1.take
              (C.encodeAck n.collab msgId status n.txBuffer).1)
            (C.encodeAck n.collab msgId status n.txBuffer).1
            (decide ((C.encodeAck n.collab msgId status n.txBuffer).1 ≤ 255) &&
              air n.sendCalls)] } := by
  have hpos : (C.encodeAck n.collab msgId status n.txBuffer).1 > 0 := Nat.pos_of_ne_zero henc
  simp [sendAck, hpos, sendPacket_snd, sendPacket_fst, henc]

/-- A pass of `loop` from idle on a packet that decodes to `m`: the message is
stored, the operator is not served, and `handleRxProcessing` runs in
`STATE_RX_PROCESSING`. -/
theorem loop_idle_inbound (C : Collaborators σ) (air : Nat → Bool) (p : Nat) (rx : LoRaRx)
    (serial : SerialIn) (n : Node σ) (m : Message)
    (hst : n.currentState = State.STATE_IDLE) (hin : inbound C rx n = some m) :
    loop C air ⟨p, rx, serial⟩ n =
      delay 10 (handleRxProcessing C air
        { stored C rx { n with clock := n.clock + p } m with
          currentState := State.STATE_RX_PROCESSING }) := by
  have hin2 : inbound C rx { n with clock := n.clock + p } = some m := hin
  simp only [loop]
  rw [checkLoRaReceive_inbound C air rx _ m hin2]
  simp [hst, stateHandler]

/-- Dispatch of a TEXT message, or of a COMMAND message carrying a command id,
in `STATE_RX_PROCESSING` when the ACK encoder reports a length: a report, one
`sendPacket` call with the encoded ACK, back to idle. -/
theorem handleRxProcessing_text_command (C : Collaborators σ) (air : Nat → Bool) (n : Node σ)
    (hst : n.currentState = State.STATE_RX_PROCESSING)
    (hty : n.lastRxMessage.type = MessageType.MSG_TEXT ∨
      (n.lastRxMessage.type = MessageType.MSG_COMMAND ∧ 1 ≤ n.lastRxMessage.payloadLength))
    (henc : (C.encodeAck n.collab n.lastRxMessage.messageId C.ACK_OK n.txBuffer).1 ≠ 0) :
    (handleRxProcessing C air n).currentState = State.STATE_IDLE ∧
    transmissions (handleRxProcessing C air n) = transmissions n ++
      [((C.encodeAck n.collab n.lastRxMessage.messageId C.ACK_OK n.txBuffer).2.1.take
          (C.encodeAck n.collab n.lastRxMessage.messageId C.ACK_OK n.txBuffer).1,
        (C.encodeAck n.collab n.lastRxMessage.messageId C.ACK_OK n.txBuffer).1,
        decide ((C.encodeAck n.collab n.lastRxMessage.messageId C.ACK_OK n.txBuffer).1 ≤ 255) &&
          air n.sendCalls)] ∧
    dispatchedOf (handleRxProcessing C air n).events =
      dispatchedOf n.events ++ [n.lastRxMessage] ∧
    (handleRxProcessing C air n).pendingMessageId = n.pendingMessageId ∧
    (handleRxProcessing C air n).retryCount = n.retryCount ∧
    (handleRxProcessing C air n).txTimestamp = n.txTimestamp := by
  rcases hty with hty | ⟨hty, hlen⟩
  · simp [handleRxProcessing, dispatchByType, hty, sendAck_encoded, henc, hst, transmissions,
      txOf_append, txOf, dispatchedOf_append, dispatchedOf]
  · simp [handleRxProcessing, dispatchByType, hty, hlen, sendAck_encoded, henc, hst,
      transmissions, txOf_append, txOf, dispatchedOf_append, dispatchedOf]

/-! ## The protocol does not read what the receive check leaves behind -/

/-- Two nodes with the same protocol view agree field by field. -/
theorem view_eq_iff (a b : Node σ) :
    view a = view b ↔
      a.currentState = b.currentState ∧ a.pendingMessageId = b.pendingMessageId ∧
      a.txTimestamp = b.txTimestamp ∧ a.retryCount = b.retryCount ∧
      a.lastTxLength = b.lastTxLength ∧ a.txBuffer = b.txBuffer ∧ a.collab = b.collab ∧
      a.clock = b.clock ∧ a.sendCalls = b.sendCalls ∧ txOf a.events = txOf b.events ∧
      dispatchedOf a.events = dispatchedOf b.events := by
  simp [view]

/-- Submits preserve agreement of the protocol view. -/
theorem view_submit (C : Collaborators σ) (air : Nat → Bool) (sub : Submit) (a b : Node σ)
    (h : view a = view b) : view (submit C air sub a) = view (submit C air sub b) := by
  rw [view_eq_iff] at h
  obtain ⟨h1, h2, h3, h4, h5, h6, h7, h8, h9, h10, h11⟩ := h
  cases sub <;>
  · simp only [submit, sendTextMessage, sendSensorRequest, sendCommand, h6, h7, h9,
      sendPacket_fst, sendPacket_snd, printError]
    split
    · simp [view, h1, h2, h3, h4, h5, h8, h9, h10, h11, txOf_append, dispatchedOf_append, txOf,
        dispatchedOf]
    · split <;>
        simp [view, h1, h2, h3, h4, h5, h8, h9, h10, h11, txOf_append, dispatchedOf_append,
          txOf, dispatchedOf, millis]

/-- The operator command preserves agreement of the protocol view. -/
theorem view_processSerialCommand (C : Collaborators σ) (air : Nat → Bool) (inp : SerialIn)
    (a b : Node σ) (h : view a = view b) :
    view (processSerialCommand C air inp a) = view (processSerialCommand C air inp b) := by
  have ht := fun t => view_submit C air (Submit.text t) a b h
  have hs := fun i => view_submit C air (Submit.sensorRequest i) a b h
  have hc := fun c => view_submit C air (Submit.command c) a b h
  simp only [submit] at ht hs hc
  have hv := (view_eq_iff a b).1 h
  obtain ⟨h1, h2, h3, h4, h5, h6, h7, h8, h9, h10, h11⟩ := hv
  unfold processSerialCommand
  split
  · exact h
  · repeat' split
    all_goals first
      | exact ht _
      | exact hs _
      | exact hc _
      | simp [view, printError, h1, h2, h3, h4, h5, h6, h7, h8, h9, h10, h11, txOf_append,
          dispatchedOf_append, txOf, dispatchedOf]

/-- The operator command leaves the state or starts waiting for an ACK. -/
theorem processSerialCommand_state (C : Collaborators σ) (air : Nat → Bool) (inp : SerialIn)
    (n : Node σ) :
    (processSerialCommand C air inp n).currentState = n.currentState ∨
    (processSerialCommand C air inp n).currentState = State.STATE_TX_WAIT_ACK := by
  have key : ∀ sub, (submit C air sub n).currentState = n.currentState ∨
      (submit C air sub n).currentState = State.STATE_TX_WAIT_ACK := by
    intro sub
    cases sub <;>
    · simp only [submit, sendTextMessage, sendSensorRequest, sendCommand, sendPacket_fst,
        sendPacket_snd, printError]
      split
      · simp
      · split <;> simp
  have ht := fun t => key (Submit.text t)
  have hs := fun i => key (Submit.sensorRequest i)
  have hc := fun c => key (Submit.command c)
  simp only [submit] at ht hs hc
  unfold processSerialCommand
  split
  · exact Or.inl rfl
  · repeat' split
    all_goals first
      | exact ht _
      | exact hs _
      | exact hc _
      | exact Or.inl rfl

/-- The timeout handler preserves agreement of the protocol view. -/
theorem view_handleTxWaitAck (air : Nat → Bool) (a b : Node σ) (h : view a = view b) :
    view (handleTxWaitAck air a) = view (handleTxWaitAck air b) := by
  have hv := (view_eq_iff a b).1 h
  obtain ⟨h1, h2, h3, h4, h5, h6, h7, h8, h9, h10, h11⟩ := hv
  simp only [handleTxWaitAck, elapsed, millis, retryMessage, delay, printInfo, printError,
    sendPacket_fst, sendPacket_snd, h2, h3, h4, h5, h6, h8, h9]
  repeat' split
  all_goals
    simp [view, h1, h2, h3, h4, h5, h6, h7, h8, h9, h10, h11, txOf_append,
      dispatchedOf_append, txOf, dispatchedOf, millis]

/-- Outside `STATE_RX_PROCESSING` the state handler preserves agreement of the
protocol view. -/
theorem view_stateHandler (C : Collaborators σ) (air : Nat → Bool) (a b : Node σ)
    (h : view a = view b) (hst : b.currentState ≠ State.STATE_RX_PROCESSING) :
    view (stateHandler C air a) = view (stateHandler C air b) := by
  have hv := (view_eq_iff a b).1 h
  obtain ⟨h1, h2, h3, h4, h5, h6, h7, h8, h9, h10, h11⟩ := hv
  unfold stateHandler
  rw [h1]
  cases hb : b.currentState
  · exact h
  · exact view_handleTxWaitAck air a b h
  · exact absurd hb hst
  · simp [handleError, printError, view, h2, h3, h4, h5, h6, h7, h8, h9, h10, h11, txOf_append,
      dispatchedOf_append, txOf, dispatchedOf]

/-- A packet that fails to decode leaves the loop pass, seen through the protocol
view, as it is without any packet. -/
theorem view_loop_decodeFails (C : Collaborators σ) (air : Nat → Bool) (p : Nat) (rx : LoRaRx)
    (serial : SerialIn) (n : Node σ) (h : decodeFails C rx n)
    (hst : n.currentState ≠ State.STATE_RX_PROCESSING) :
    view (loop C air ⟨p, rx, serial⟩ n) = view (loop C air ⟨p, (quiet p).radio, serial⟩ n) := by
  have h2 : decodeFails C rx { n with clock := n.clock + p } := h
  have hq : checkLoRaReceive C air (quiet p).radio { n with clock := n.clock + p } =
      { n with clock := n.clock + p } := by
    simp [checkLoRaReceive, quiet, receivePacket]
  have hv : view (checkLoRaReceive C air rx { n with clock := n.clock + p }) =
      view ({ n with clock := n.clock + p } : Node σ) := by
    rw [checkLoRaReceive_decodeFails C air rx _ h2]
    simp [view, stored, txOf_append, dispatchedOf_append, txOf, dispatchedOf]
  have hs := ((view_eq_iff _ _).1 hv).1
  simp only [loop, hq]
  rw [hs]
  have hd : ∀ x y : Node σ, view x = view y → view (delay 10 x) = view (delay 10 y) := by
    intro x y hxy
    have hxy2 := (view_eq_iff x y).1 hxy
    obtain ⟨h1, h2, h3, h4, h5, h6, h7, h8, h9, h10, h11⟩ := hxy2
    simp [view, delay, h1, h2, h3, h4, h5, h6, h7, h8, h9, h10, h11, txOf_append,
      dispatchedOf_append, txOf, dispatchedOf]
  apply hd
  split
  · rename_i hc
    apply view_stateHandler C air _ _ (view_processSerialCommand C air serial _ _ hv)
    rcases processSerialCommand_state C air serial { n with clock := n.clock + p } with h3 | h3
    · rw [h3]; exact hst
    · rw [h3]; decide
  · exact view_stateHandler C air _ _ hv hst

/-- A submit runs no dispatch. -/
theorem dispatchedOf_submit (C : Collaborators σ) (air : Nat → Bool) (sub : Submit)
    (n : Node σ) : dispatchedOf (submit C air sub n).events = dispatchedOf n.events := by
  cases sub <;>
  · simp only [submit, sendTextMessage, sendSensorRequest, sendCommand, sendPacket_fst,
      sendPacket_snd, printError]
    split
    · simp [dispatchedOf_append, dispatchedOf]
    · split <;> simp [dispatchedOf_append, dispatchedOf]

/-- The operator command runs no dispatch. -/
theorem dispatchedOf_processSerialCommand (C : Collaborators σ) (air : Nat → Bool)
    (inp : SerialIn) (n : Node σ) :
    dispatchedOf (processSerialCommand C air inp n).events = dispatchedOf n.events := by
  have ht := fun t => dispatchedOf_submit C air (Submit.text t) n
  have hs := fun i => dispatchedOf_submit C air (Submit.sensorRequest i) n
  have hc := fun c => dispatchedOf_submit C air (Submit.command c) n
  simp only [submit] at ht hs hc
  unfold processSerialCommand
  split
  · rfl
  · repeat' split
    all_goals first
      | exact ht _
      | exact hs _
      | exact hc _
      | simp [printError, dispatchedOf_append, dispatchedOf]

/-- The timeout handler runs no dispatch. -/
theorem dispatchedOf_handleTxWaitAck (air : Nat → Bool) (n : Node σ) :
    dispatchedOf (handleTxWaitAck air n).events = dispatchedOf n.events := by
  simp only [handleTxWaitAck, retryMessage, delay, printInfo, printError, sendPacket_fst,
    sendPacket_snd]
  repeat' split
  all_goals simp [dispatchedOf_append, dispatchedOf]

/-- A loop pass with no packet that does not start in `STATE_RX_PROCESSING` runs
no dispatch. -/
theorem dispatchedOf_loop_quiet (C : Collaborators σ) (air : Nat → Bool) (p : Nat)
    (serial : SerialIn) (n : Node σ) (hst : n.currentState ≠ State.STATE_RX_PROCESSING) :
    dispatchedOf (loop C air ⟨p, (quiet p).radio, serial⟩ n).events = dispatchedOf n.events := by
  have hq : checkLoRaReceive C air (quiet p).radio { n with clock := n.clock + p } =
      { n with clock := n.clock + p } := by
    simp [checkLoRaReceive, quiet, receivePacket]
  have hh : ∀ k : Node σ, k.currentState ≠ State.STATE_RX_PROCESSING →
      dispatchedOf (stateHandler C air k).events = dispatchedOf k.events := by
    intro k hk
    unfold stateHandler
    cases hb : k.currentState
    · rfl
    · exact dispatchedOf_handleTxWaitAck air k
    · exact absurd hb hk
    · simp [handleError, printError, dispatchedOf_append, dispatchedOf]
  simp only [loop, hq, delay, dispatchedOf_append]
  split
  · rw [hh, dispatchedOf_processSerialCommand]
    · simp [dispatchedOf]
    · rcases processSerialCommand_state C air serial { n with clock := n.clock + p } with h3 | h3
      · rw [h3]; exact hst
      · rw [h3]; decide
  · rw [hh { n with clock := n.clock + p } hst]
    simp [dispatchedOf]

/-- An ACK that is too short or acknowledges another id than the pending one
changes nothing in the protocol: neither when it arrives in `STATE_TX_WAIT_ACK`
(receive check) nor when it arrives in `STATE_IDLE` (whole loop pass). -/
theorem ack_unmatched_inert (C : Collaborators σ) (air : Nat → Bool) (rx : LoRaRx)
    (n : Node σ) (m : Message) (hin : inbound C rx n = some m)
    (hty : m.type = MessageType.MSG_ACK)
    (hno : m.payloadLength < 3 ∨ ackedMsgId m ≠ n.pendingMessageId) :
    (n.currentState = State.STATE_TX_WAIT_ACK →
      (checkLoRaReceive C air rx n).currentState = State.STATE_TX_WAIT_ACK ∧
      (checkLoRaReceive C air rx n).pendingMessageId = n.pendingMessageId ∧
      (checkLoRaReceive C air rx n).retryCount = n.retryCount ∧
      (checkLoRaReceive C air rx n).txTimestamp = n.txTimestamp ∧
      transmissions (checkLoRaReceive C air rx n) = transmissions n ∧
      ackReportsOf (checkLoRaReceive C air rx n).events = ackReportsOf n.events) ∧
    (n.currentState = State.STATE_IDLE → ∀ (p : Nat) (serial : SerialIn),
      (loop C air ⟨p, rx, serial⟩ n).currentState = State.STATE_IDLE ∧
      (loop C air ⟨p, rx, serial⟩ n).pendingMessageId = n.pendingMessageId ∧
      (loop C air ⟨p, rx, serial⟩ n).retryCount = n.retryCount ∧
      (loop C air ⟨p, rx, serial⟩ n).txTimestamp = n.txTimestamp ∧
      transmissions (loop C air ⟨p, rx, serial⟩ n) = transmissions n ∧
      ackReportsOf (loop C air ⟨p, rx, serial⟩ n).events = ackReportsOf n.events) := by
  refine ⟨?_, ?_⟩
  · intro hst
    rw [checkLoRaReceive_inbound C air rx n m hin, if_pos ⟨hst, hty⟩,
      handleRxProcessing_ack_other C air (stored C rx n m) hty hno]
    simp [stored, hst, transmissions, txOf_append, txOf, ackReportsOf_append, ackReportsOf]
  · intro hst p serial
    rw [loop_idle_inbound C air p rx serial n m hst hin,
      handleRxProcessing_ack_other C air _ hty hno]
    simp [stored, delay, transmissions, txOf_append, txOf, ackReportsOf_append, ackReportsOf]

/-! ## Lemmas on the invariants -/

theorem deliveryFailuresOf_append (a b : List Event) :
    deliveryFailuresOf (a ++ b) = deliveryFailuresOf a + deliveryFailuresOf b := by
  induction a with
  | nil => simp [deliveryFailuresOf]
  | cons e rest ih => cases e <;> simp [deliveryFailuresOf, ih, Nat.add_assoc]

/-- `sendAck` touches neither state nor retry count nor pending id nor stored length. -/
theorem sendAck_core (C : Collaborators σ) (air : Nat → Bool) (msgId status : Nat)
    (n : Node σ) :
    (sendAck C air msgId status n).currentState = n.currentState ∧
    (sendAck C air msgId status n).retryCount = n.retryCount ∧
    (sendAck C air msgId status n).pendingMessageId = n.pendingMessageId ∧
    (sendAck C air msgId status n).lastTxLength = n.lastTxLength := by
  simp only [sendAck]
  split <;> simp [sendPacket_snd]

/-- The dispatch either leaves state and pending id, or (matching ACK) goes idle
with the pending id cleared; retry count and stored length stay. -/
theorem dispatchByType_core (C : Collaborators σ) (air : Nat → Bool) (n : Node σ) :
    (dispatchByType C air n).retryCount = n.retryCount ∧
    (dispatchByType C air n).lastTxLength = n.lastTxLength ∧
    (((dispatchByType C air n).currentState = n.currentState ∧
        (dispatchByType C air n).pendingMessageId = n.pendingMessageId) ∨
      ((dispatchByType C air n).currentState = State.STATE_IDLE ∧
        (dispatchByType C air n).pendingMessageId = 0)) := by
  simp only [dispatchByType]
  split <;> (try split) <;> (try split) <;>
    simp [sendAck_core, delay, printError, sendPacket_snd]

/-- `handleRxProcessing` leaves retry count and stored length; the state ends as it
was, or idle when it was `STATE_RX_PROCESSING`, or idle with the pending id
cleared. -/
theorem handleRxProcessing_core (C : Collaborators σ) (air : Nat → Bool) (n : Node σ) :
    (handleRxProcessing C air n).retryCount = n.retryCount ∧
    (handleRxProcessing C air n).lastTxLength = n.lastTxLength ∧
    (((handleRxProcessing C air n).currentState =
          (if n.currentState = State.STATE_RX_PROCESSING then State.STATE_IDLE
           else n.currentState) ∧
        (handleRxProcessing C air n).pendingMessageId = n.pendingMessageId) ∨
      ((handleRxProcessing C air n).currentState = State.STATE_IDLE ∧
        (handleRxProcessing C air n).pendingMessageId = 0)) := by
  obtain ⟨h1, h2, h3⟩ := dispatchByType_core C air
    { n with events := n.events ++ [Event.dispatch n.lastRxMessage] }
  simp only at h1 h2 h3
  simp only [handleRxProcessing]
  split
  · rename_i hrx
    rcases h3 with ⟨h3, h4⟩ | ⟨h3, h4⟩
    · rw [h3] at hrx
      exact ⟨h1, h2, Or.inl ⟨by simp [hrx], h4⟩⟩
    · rw [h3] at hrx
      cases hrx
  · rename_i hrx
    rcases h3 with ⟨h3, h4⟩ | ⟨h3, h4⟩
    · rw [h3] at hrx
      exact ⟨h1, h2, Or.inl ⟨by simp [hrx, h3], h4⟩⟩
    · exact ⟨h1, h2, Or.inr ⟨h3, h4⟩⟩

/-- The receive check when no packet is there. -/
theorem checkLoRaReceive_none (C : Collaborators σ) (air : Nat → Bool) (rx : LoRaRx)
    (n : Node σ)
    (h : (receivePacket rx n.loraComm n.rxBuffer C.MSG_MAX_PACKET_SIZE).1 = 0) :
    checkLoRaReceive C air rx n =
      { n with
        rxBuffer := (receivePacket rx n.loraComm n.rxBuffer C.MSG_MAX_PACKET_SIZE).2.1
        loraComm := (receivePacket rx n.loraComm n.rxBuffer C.MSG_MAX_PACKET_SIZE).2.2 } := by
  simp [checkLoRaReceive, h]

/-- The three outcomes of reading the radio: nothing, a packet that fails to
decode, a message. -/
theorem receive_cases (C : Collaborators σ) (rx : LoRaRx) (n : Node σ) :
    (receivePacket rx n.loraComm n.rxBuffer C.MSG_MAX_PACKET_SIZE).1 = 0 ∨
    decodeFails C rx n ∨ ∃ m, inbound C rx n = some m := by
  by_cases h1 : (receivePacket rx n.loraComm n.rxBuffer C.MSG_MAX_PACKET_SIZE).1 > 0
  · by_cases h2 : (C.decode (receivePacket rx n.loraComm n.rxBuffer C.MSG_MAX_PACKET_SIZE).2.1
        (receivePacket rx n.loraComm n.rxBuffer C.MSG_MAX_PACKET_SIZE).1 n.lastRxMessage).1 = true
    · right; right
      simp [inbound, h1, h2]
    · right; left
      exact ⟨h1, by simpa using h2⟩
  · left
    omega

/-- The receive check leaves retry count and stored length; it leaves state and
pending id, or goes from idle to `STATE_RX_PROCESSING`, or (matching ACK) from
waiting to idle with the pending id cleared. -/
theorem checkLoRaReceive_core (C : Collaborators σ) (air : Nat → Bool) (rx : LoRaRx)
    (n : Node σ) :
    (checkLoRaReceive C air rx n).retryCount = n.retryCount ∧
    (checkLoRaReceive C air rx n).lastTxLength = n.lastTxLength ∧
    (((checkLoRaReceive C air rx n).currentState = n.currentState ∧
        (checkLoRaReceive C air rx n).pendingMessageId = n.pendingMessageId) ∨
      (n.currentState = State.STATE_IDLE ∧
        (checkLoRaReceive C air rx n).currentState = State.STATE_RX_PROCESSING ∧
        (checkLoRaReceive C air rx n).pendingMessageId = n.pendingMessageId) ∨
      (n.currentState = State.STATE_TX_WAIT_ACK ∧
        (checkLoRaReceive C air rx n).currentState = State.STATE_IDLE ∧
        (checkLoRaReceive C air rx n).pendingMessageId = 0)) := by
  rcases receive_cases C rx n with h | h | ⟨m, h⟩
  · rw [checkLoRaReceive_none C air rx n h]
    simp
  · rw [checkLoRaReceive_decodeFails C air rx n h]
    simp [stored]
  · rw [checkLoRaReceive_inbound C air rx n m h]
    split
    · rename_i hc
      obtain ⟨h1, h2, h3⟩ := handleRxProcessing_core C air (stored C rx n m)
      have hs : (stored C rx n m).currentState = n.currentState := rfl
      rw [hs, hc.1] at h3
      refine ⟨h1, h2, ?_⟩
      rcases h3 with ⟨h3, h4⟩ | ⟨h3, h4⟩
      · left
        rw [hc.1]
        exact ⟨by simpa using h3, h4⟩
      · right; right
        exact ⟨hc.1, h3, h4⟩
    · split
      · rename_i hi
        simp [stored, hi]
      · simp [stored]

/-- A submit leaves state and retry count, or starts waiting with retry count 0
and a non-zero stored length. -/
theorem submit_core (C : Collaborators σ) (air : Nat → Bool) (sub : Submit) (n : Node σ) :
    ((submit C air sub n).currentState = n.currentState ∧
      (submit C air sub n).retryCount = n.retryCount) ∨
    ((submit C air sub n).currentState = State.STATE_TX_WAIT_ACK ∧
      (submit C air sub n).retryCount = 0 ∧ (submit C air sub n).lastTxLength ≠ 0) := by
  cases sub <;>
  · simp only [submit, sendTextMessage, sendSensorRequest, sendCommand, sendPacket_fst,
      sendPacket_snd, printError]
    split
    · simp
    · rename_i hne
      split <;> simp [hne]

/-- The operator command leaves state and retry count, or starts waiting with
retry count 0 and a non-zero stored length. -/
theorem processSerialCommand_core (C : Collaborators σ) (air : Nat → Bool) (inp : SerialIn)
    (n : Node σ) :
    ((processSerialCommand C air inp n).currentState = n.currentState ∧
      (processSerialCommand C air inp n).retryCount = n.retryCount) ∨
    ((processSerialCommand C air inp n).currentState = State.STATE_TX_WAIT_ACK ∧
      (processSerialCommand C air inp n).retryCount = 0 ∧
      (processSerialCommand C air inp n).lastTxLength ≠ 0) := by
  have ht := fun t => submit_core C air (Submit.text t) n
  have hs := fun i => submit_core C air (Submit.sensorRequest i) n
  have hc := fun c => submit_core C air (Submit.command c) n
  simp only [submit] at ht hs hc
  unfold processSerialCommand
  split
  · exact Or.inl ⟨rfl, rfl⟩
  · repeat' split
    all_goals first
      | exact ht _
      | exact hs _
      | exact hc _
      | exact Or.inl ⟨rfl, rfl⟩

/-- The timeout handler leaves the stored length; it leaves state, retry count and
pending id, or retries (retry count below the bound and a non-zero pending id
before, one more after), or gives up (idle, pending id cleared). -/
theorem handleTxWaitAck_core (air : Nat → Bool) (n : Node σ) :
    (handleTxWaitAck air n).lastTxLength = n.lastTxLength ∧
    (((handleTxWaitAck air n).currentState = n.currentState ∧
        (handleTxWaitAck air n).retryCount = n.retryCount ∧
        (handleTxWaitAck air n).pendingMessageId = n.pendingMessageId) ∨
      ((handleTxWaitAck air n).currentState = n.currentState ∧
        (handleTxWaitAck air n).retryCount = n.retryCount + 1 ∧
        n.retryCount < MAX_RETRIES ∧ n.pendingMessageId ≠ 0 ∧
        (handleTxWaitAck air n).pendingMessageId = n.pendingMessageId) ∨
      ((handleTxWaitAck air n).currentState = State.STATE_IDLE ∧
        (handleTxWaitAck air n).retryCount = n.retryCount ∧
        (handleTxWaitAck air n).pendingMessageId = 0)) := by
  by_cases hel : ACK_TIMEOUT ≤ elapsed n
  · by_cases hrc : n.retryCount < MAX_RETRIES
    · by_cases hp : n.pendingMessageId = 0 ∨ n.lastTxLength = 0
      · rw [handleTxWaitAck_guarded air n hel hrc hp]
        simp
      · have hp1 : n.pendingMessageId ≠ 0 := fun h => hp (Or.inl h)
        have hp2 : n.lastTxLength ≠ 0 := fun h => hp (Or.inr h)
        rw [handleTxWaitAck_retry air n hel hrc hp1 hp2]
        simp [hrc, hp1]
    · rw [handleTxWaitAck_exhausted air n hel hrc]
      simp
  · rw [handleTxWaitAck_early air n hel]
    simp

/-- The receive check takes a sound node to one that is sound inside the pass. -/
theorem checkLoRaReceive_soundMid (C : Collaborators σ) (air : Nat → Bool) (rx : LoRaRx)
    (n : Node σ) (h : Sound n) : SoundMid (checkLoRaReceive C air rx n) := by
  obtain ⟨hrc, hst, htx⟩ := h
  obtain ⟨h1, h2, h3⟩ := checkLoRaReceive_core C air rx n
  refine ⟨by rw [h1]; exact hrc, ?_⟩
  rcases h3 with ⟨h3, h4⟩ | ⟨_, h3, _⟩ | ⟨_, h3, _⟩
  · rcases hst with hs | hs
    · left; rw [h3]; exact hs
    · right; right
      rw [h3, h2, h4, h1]
      exact ⟨hs, htx hs⟩
  · right; left; exact h3
  · left; exact h3

/-- Serving the operator keeps the node sound inside the pass. -/
theorem serial_soundMid (C : Collaborators σ) (air : Nat → Bool) (inp : SerialIn)
    (n : Node σ) (h : SoundMid n) :
    SoundMid (if n.currentState = State.STATE_IDLE ∧ inp.available = true then
      processSerialCommand C air inp n else n) := by
  split
  · rename_i hc
    obtain ⟨hrc, _⟩ := h
    rcases processSerialCommand_core C air inp n with ⟨h1, h2⟩ | ⟨h1, h2, h3⟩
    · exact ⟨by rw [h2]; exact hrc, Or.inl (by rw [h1]; exact hc.1)⟩
    · exact ⟨by rw [h2]; exact Nat.zero_le _, Or.inr (Or.inr ⟨h1, h3, fun _ => h2⟩)⟩
  · exact h

/-- The state handler takes a node that is sound inside the pass to a sound one. -/
theorem stateHandler_sound (C : Collaborators σ) (air : Nat → Bool) (n : Node σ)
    (h : SoundMid n) : Sound (stateHandler C air n) := by
  obtain ⟨hrc, hst⟩ := h
  rcases hst with hs | hs | ⟨hs, hl, hp⟩
  · simp only [stateHandler, hs, handleIdle]
    exact ⟨hrc, Or.inl hs, fun h => by rw [hs] at h; cases h⟩
  · simp only [stateHandler, hs]
    obtain ⟨h1, _, h3⟩ := handleRxProcessing_core C air n
    rw [hs] at h3
    have hidle : (handleRxProcessing C air n).currentState = State.STATE_IDLE := by
      rcases h3 with ⟨h3, _⟩ | ⟨h3, _⟩
      · simpa using h3
      · exact h3
    exact ⟨by rw [h1]; exact hrc, Or.inl hidle, fun h => by rw [hidle] at h; cases h⟩
  · simp only [stateHandler, hs]
    obtain ⟨h1, h2⟩ := handleTxWaitAck_core air n
    rcases h2 with ⟨h2, h3, h4⟩ | ⟨h2, h3, h4, h5, h6⟩ | ⟨h2, h3, _⟩
    · exact ⟨by rw [h3]; exact hrc, Or.inr (by rw [h2]; exact hs),
        fun _ => ⟨by rw [h1]; exact hl, by rw [h4, h3]; exact hp⟩⟩
    · refine ⟨by rw [h3]; exact h4, Or.inr (by rw [h2]; exact hs),
        fun _ => ⟨by rw [h1]; exact hl, ?_⟩⟩
      rw [h6]
      intro h0
      exact absurd h0 h5
    · exact ⟨by rw [h3]; exact hrc, Or.inl h2, fun h => by rw [h2] at h; cases h⟩

/-- A pass of `loop` keeps the node sound. -/
theorem loop_sound (C : Collaborators σ) (air : Nat → Bool) (i : LoopInput) (n : Node σ)
    (h : Sound n) : Sound (loop C air i n) := by
  have h0 : Sound ({ n with clock := n.clock + i.passed } : Node σ) := h
  have h1 := checkLoRaReceive_soundMid C air i.radio _ h0
  have h2 := serial_soundMid C air i.serial _ h1
  have h3 := stateHandler_sound C air _ h2
  exact h3

/-- The start-up node is sound. -/
theorem initNode_sound (C : Collaborators σ) (s : σ) : Sound (initNode C s) :=
  ⟨Nat.zero_le _, Or.inl rfl, fun h => by cases h⟩

/-- Every node reached from start-up by passes of `loop` is sound. -/
theorem runLoop_sound (C : Collaborators σ) (air : Nat → Bool) (inputs : List LoopInput) :
    ∀ n : Node σ, Sound n → Sound (runLoop C air inputs n) := by
  induction inputs with
  | nil => intro n h; exact h
  | cons i rest ih => intro n h; exact ih _ (loop_sound C air i n h)

/-! ## Lemmas on a pending send that cannot be retried -/

/-- In `STATE_TX_WAIT_ACK`, a receive check that finds no matching ACK leaves the
send as it is: state, pending id, stored packet, retry count, timer and clock,
the retries and failed counts, the transmissions and the failure reports. -/
theorem checkLoRaReceive_unacked (C : Collaborators σ) (air : Nat → Bool) (rx : LoRaRx)
    (n : Node σ) (hst : n.currentState = State.STATE_TX_WAIT_ACK)
    (hno : matchingAck C rx n = false) :
    (checkLoRaReceive C air rx n).currentState = State.STATE_TX_WAIT_ACK ∧
    (checkLoRaReceive C air rx n).pendingMessageId = n.pendingMessageId ∧
    (checkLoRaReceive C air rx n).lastTxLength = n.lastTxLength ∧
    (checkLoRaReceive C air rx n).retryCount = n.retryCount ∧
    (checkLoRaReceive C air rx n).txTimestamp = n.txTimestamp ∧
    (checkLoRaReceive C air rx n).clock = n.clock ∧
    (checkLoRaReceive C air rx n).stats.retries = n.stats.retries ∧
    (checkLoRaReceive C air rx n).stats.messagesFailed = n.stats.messagesFailed ∧
    txOf (checkLoRaReceive C air rx n).events = txOf n.events ∧
    deliveryFailuresOf (checkLoRaReceive C air rx n).events = deliveryFailuresOf n.events := by
  rcases receive_cases C rx n with h | h | ⟨m, h⟩
  · rw [checkLoRaReceive_none C air rx n h]
    simp [hst]
  · rw [checkLoRaReceive_decodeFails C air rx n h]
    simp [stored, hst, txOf_append, txOf, deliveryFailuresOf_append, deliveryFailuresOf]
  · rw [checkLoRaReceive_inbound C air rx n m h]
    simp only [matchingAck, h, decide_eq_false_iff_not] at hno
    by_cases hty : m.type = MessageType.MSG_ACK
    · have hother : m.payloadLength < 3 ∨ ackedMsgId m ≠ n.pendingMessageId := by
        by_cases h3 : 3 ≤ m.payloadLength
        · right
          intro hid
          exact hno ⟨hty, h3, hid⟩
        · left
          omega
      rw [if_pos ⟨hst, hty⟩, handleRxProcessing_ack_other C air (stored C rx n m) hty hother]
      simp [stored, hst, txOf_append, txOf, deliveryFailuresOf_append, deliveryFailuresOf]
    · rw [if_neg (fun hc => hty hc.2)]
      simp [stored, hst]

/-- A pass of `loop` in `STATE_TX_WAIT_ACK` with pending id 0 or stored length 0, retries
left and no matching ACK on the radio: the node keeps waiting with the same
retry count, transmits nothing and reports no failure. -/
theorem loop_unacked_stuck (C : Collaborators σ) (air : Nat → Bool) (i : LoopInput)
    (n : Node σ) (hst : n.currentState = State.STATE_TX_WAIT_ACK)
    (hp : n.pendingMessageId = 0 ∨ n.lastTxLength = 0) (hrc : n.retryCount < MAX_RETRIES)
    (hno : matchingAck C i.radio n = false) :
    (loop C air i n).currentState = State.STATE_TX_WAIT_ACK ∧
    (loop C air i n).pendingMessageId = n.pendingMessageId ∧
    (loop C air i n).lastTxLength = n.lastTxLength ∧
    (loop C air i n).retryCount = n.retryCount ∧
    (loop C air i n).txTimestamp = n.txTimestamp ∧
    (loop C air i n).stats.retries = n.stats.retries ∧
    (loop C air i n).stats.messagesFailed = n.stats.messagesFailed ∧
    txOf (loop C air i n).events = txOf n.events ∧
    deliveryFailuresOf (loop C air i n).events = deliveryFailuresOf n.events := by
  obtain ⟨k1, k2, k3, k4, k5, _, k7, k8, k9, k10⟩ :=
    checkLoRaReceive_unacked C air i.radio { n with clock := n.clock + i.passed } hst hno
  simp only at k2 k3 k4 k5 k7 k8 k9 k10
  have key : loop C air i n = delay 10 (handleTxWaitAck air
      (checkLoRaReceive C air i.radio { n with clock := n.clock + i.passed })) := by
    simp [loop, stateHandler, k1]
  rw [key]
  generalize checkLoRaReceive C air i.radio { n with clock := n.clock + i.passed } = k at *
  by_cases hel : ACK_TIMEOUT ≤ elapsed k
  · rw [handleTxWaitAck_guarded air k hel (by rw [k4]; exact hrc) (by rw [k2, k3]; exact hp)]
    simp [delay, k1, k2, k3, k4, k5, k7, k8, k9, k10, txOf_append, txOf,
      deliveryFailuresOf_append, deliveryFailuresOf]
  · rw [handleTxWaitAck_early air k hel]
    simp [delay, k1, k2, k3, k4, k5, k7, k8, k9, k10, txOf_append, txOf,
      deliveryFailuresOf_append, deliveryFailuresOf]

/-- Any run of passes without a matching ACK leaves such a node waiting. -/
theorem runLoop_unacked_stuck (C : Collaborators σ) (air : Nat → Bool)
    (inputs : List LoopInput) :
    ∀ n : Node σ, n.currentState = State.STATE_TX_WAIT_ACK →
      (n.pendingMessageId = 0 ∨ n.lastTxLength = 0) → n.retryCount < MAX_RETRIES →
      neverAcked C air inputs n = true →
      (runLoop C air inputs n).currentState = State.STATE_TX_WAIT_ACK ∧
      (runLoop C air inputs n).retryCount = n.retryCount ∧
      (runLoop C air inputs n).txTimestamp = n.txTimestamp ∧
      (runLoop C air inputs n).stats.retries = n.stats.retries ∧
      (runLoop C air inputs n).stats.messagesFailed = n.stats.messagesFailed ∧
      txOf (runLoop C air inputs n).events = txOf n.events ∧
      deliveryFailuresOf (runLoop C air inputs n).events = deliveryFailuresOf n.events := by
  induction inputs with
  | nil => intro n hst _ _ _; exact ⟨hst, rfl, rfl, rfl, rfl, rfl, rfl⟩
  | cons i rest ih =>
    intro n hst hp hrc hna
    simp only [neverAcked, Bool.and_eq_true, Bool.not_eq_true'] at hna
    obtain ⟨h1, h2, h3, h4, h5, h6, h7, h8, h9⟩ := loop_unacked_stuck C air i n hst hp hrc hna.1
    obtain ⟨g1, g2, g3, g4, g5, g6, g7⟩ := ih (loop C air i n) h1 (by rw [h2, h3]; exact hp)
      (by rw [h4]; exact hrc) hna.2
    simp only [runLoop]
    exact ⟨g1, by rw [g2, h4], by rw [g3, h5], by rw [g4, h6], by rw [g5, h7], by rw [g6, h8],
      by rw [g7, h9]⟩

/-! ## Lemmas on `receivePacket` -/

/-- The read loop: the count it returns, and the buffer it leaves, cell by cell. -/
theorem readLoop_spec (fifo : List Nat) :
    ∀ (buffer : List Nat) (bytesRead maxLength : Nat),
      (readLoop fifo buffer bytesRead maxLength).1 =
        bytesRead + min fifo.length (maxLength - bytesRead) ∧
      (readLoop fifo buffer bytesRead maxLength).2.length = buffer.length ∧
      ∀ j : Nat, (readLoop fifo buffer bytesRead maxLength).2[j]? =
        if bytesRead ≤ j ∧ j < bytesRead + min fifo.length (maxLength - bytesRead) ∧
            j < buffer.length then fifo[j - bytesRead]?
        else buffer[j]? := by
  induction fifo with
  | nil =>
    intro buffer bytesRead maxLength
    simp only [readLoop, List.length_nil, Nat.zero_min, Nat.add_zero, true_and]
    intro j
    have c : ¬ (bytesRead ≤ j ∧ j < bytesRead ∧ j < buffer.length) := by omega
    rw [if_neg c]
  | cons b rest ih =>
    intro buffer bytesRead maxLength
    unfold readLoop
    split
    · rename_i hlt
      obtain ⟨h1, h2, h3⟩ := ih (buffer.set bytesRead b) (bytesRead + 1) maxLength
      refine ⟨?_, ?_, ?_⟩
      · rw [h1]
        simp only [List.length_cons]
        omega
      · rw [h2]
        simp
      · intro j
        rw [h3 j]
        simp only [List.length_set, List.length_cons, List.getElem?_set]
        by_cases hj : bytesRead = j
        · subst hj
          by_cases hb : bytesRead < buffer.length
          · have c1 : ¬ (bytesRead + 1 ≤ bytesRead ∧
                bytesRead < bytesRead + 1 + min rest.length (maxLength - (bytesRead + 1)) ∧
                bytesRead < buffer.length) := by omega
            have c2 : bytesRead ≤ bytesRead ∧
                bytesRead < bytesRead + min (rest.length + 1) (maxLength - bytesRead) ∧
                bytesRead < buffer.length := by omega
            simp [c1, c2, hb]
          · have c1 : ¬ (bytesRead + 1 ≤ bytesRead ∧
                bytesRead < bytesRead + 1 + min rest.length (maxLength - (bytesRead + 1)) ∧
                bytesRead < buffer.length) := by omega
            have c2 : ¬ (bytesRead ≤ bytesRead ∧
                bytesRead < bytesRead + min (rest.length + 1) (maxLength - bytesRead) ∧
                bytesRead < buffer.length) := by omega
            have hnone : buffer[bytesRead]? = none := by
              simp only [List.getElem?_eq_none_iff]
              omega
            simp [c1, c2, hb, hnone]
        · by_cases hc : bytesRead + 1 ≤ j ∧
              j < bytesRead + 1 + min rest.length (maxLength - (bytesRead + 1)) ∧
              j < buffer.length
          · have c2 : bytesRead ≤ j ∧
                j < bytesRead + min (rest.length + 1) (maxLength - bytesRead) ∧
                j < buffer.length := by omega
            have hidx : j - bytesRead = (j - (bytesRead + 1)) + 1 := by omega
            simp only [hc, c2, and_self, if_true, hj, if_false]
            rw [hidx, List.getElem?_cons_succ]
          · have c2 : ¬ (bytesRead ≤ j ∧
                j < bytesRead + min (rest.length + 1) (maxLength - bytesRead) ∧
                j < buffer.length) := by omega
            simp [hc, c2, hj]
    · rename_i hge
      have hz : maxLength - bytesRead = 0 := by omega
      simp only [hz, Nat.min_zero, Nat.add_zero, true_and]
      intro j
      have c : ¬ (bytesRead ≤ j ∧ j < bytesRead ∧ j < buffer.length) := by omega
      rw [if_neg c]

/-- A pass of `loop` that starts idle or waiting ends idle or waiting, whatever
the other variables hold. -/
theorem loop_idle_or_waiting (C : Collaborators σ) (air : Nat → Bool) (i : LoopInput)
    (n : Node σ)
    (h : n.currentState = State.STATE_IDLE ∨ n.currentState = State.STATE_TX_WAIT_ACK) :
    (loop C air i n).currentState = State.STATE_IDLE ∨
    (loop C air i n).currentState = State.STATE_TX_WAIT_ACK := by
  have hh : ∀ k : Node σ, k.currentState ≠ State.STATE_ERROR →
      (stateHandler C air k).currentState = State.STATE_IDLE ∨
      (stateHandler C air k).currentState = State.STATE_TX_WAIT_ACK := by
    intro k hk
    cases hs : k.currentState
    · simp [stateHandler, hs, handleIdle]
    · simp only [stateHandler, hs]
      rcases (handleTxWaitAck_core air k).2 with ⟨h2, _⟩ | ⟨h2, _⟩ | ⟨h2, _⟩
      · exact Or.inr (by rw [h2]; exact hs)
      · exact Or.inr (by rw [h2]; exact hs)
      · exact Or.inl h2
    · simp only [stateHandler, hs]
      rcases (handleRxProcessing_core C air k).2.2 with ⟨h3, _⟩ | ⟨h3, _⟩
      · left
        rw [h3, hs]
        simp
      · exact Or.inl h3
    · exact absurd hs hk
  have h1 : (checkLoRaReceive C air i.radio { n with clock := n.clock + i.passed }).currentState ≠
      State.STATE_ERROR := by
    rcases (checkLoRaReceive_core C air i.radio { n with clock := n.clock + i.passed }).2.2
      with ⟨h3, _⟩ | ⟨_, h3, _⟩ | ⟨_, h3, _⟩
    · rw [h3]
      rcases h with h | h <;> simp [h]
    · rw [h3]; decide
    · rw [h3]; decide
  simp only [loop, delay]
  apply hh
  split
  · rename_i hc
    rcases processSerialCommand_state C air i.serial
      (checkLoRaReceive C air i.radio { n with clock := n.clock + i.passed }) with h3 | h3
    · rw [h3]; exact h1
    · rw [h3]; decide
  · exact h1

/-! ## The claims -/

/-- C1, evaluated where the code departs from it.  The operator submits `hi` while
the message counter is 0, the transmission succeeds, and no packet ever arrives.
However many loop passes follow and however long they take, the node is still
in `STATE_TX_WAIT_ACK`: the packet went out once, not four times, the retry count
is 0 and no failure has been counted. -/
theorem message_id_zero_never_fails (ps : List Nat) :
    (runLoop refCollab airOk (ps.map quiet) exAwaiting0).currentState =
      State.STATE_TX_WAIT_ACK ∧
    transmissions (runLoop refCollab airOk (ps.map quiet) exAwaiting0) =
      [([1, 0, 0, 2, 104, 105, 2], 7, true)] ∧
    (runLoop refCollab airOk (ps.map quiet) exAwaiting0).retryCount = 0 ∧
    (runLoop refCollab airOk (ps.map quiet) exAwaiting0).stats.messagesFailed = 0 := by
  obtain ⟨h1, h2, h3, h4⟩ := runLoop_quiet_stuck refCollab airOk ps exAwaiting0
    (by decide) (by decide) (by decide)
  rw [h1, h2, h3, h4]
  decide

/-- C2 as stated fails: the node awaits the ACK for message 7 with one retry made,
the ACK for 7 arrives, and the operator has typed `send yo` meanwhile.  The
receive check completes message 7 and the same loop pass serves the operator:
the pass ends in `STATE_TX_WAIT_ACK` for message 8, with the retry count reset
from 1 to 0 and a new transmission made. -/
theorem ack_pass_can_end_waiting :
    exRetried7.currentState = State.STATE_TX_WAIT_ACK ∧
    exRetried7.pendingMessageId = 7 ∧
    exRetried7.retryCount = 1 ∧
    (inbound refCollab (ackFor 7) exRetried7).map (fun m => (m.type, m.payloadLength, ackedMsgId m))
      = some (MessageType.MSG_ACK, 3, 7) ∧
    (loop refCollab airOk ⟨0, ackFor 7, serialSendYo⟩ exRetried7).currentState =
      State.STATE_TX_WAIT_ACK ∧
    (loop refCollab airOk ⟨0, ackFor 7, serialSendYo⟩ exRetried7).pendingMessageId = 8 ∧
    (loop refCollab airOk ⟨0, ackFor 7, serialSendYo⟩ exRetried7).retryCount = 0 ∧
    (transmissions (loop refCollab airOk ⟨0, ackFor 7, serialSendYo⟩ exRetried7)).length =
      (transmissions exRetried7).length + 1 := by
  decide

/-- C2, amended.  The node is in `STATE_TX_WAIT_ACK` and the radio delivers a packet
that decodes to an ACK of at least three payload bytes acknowledging the pending
id.  Then the receive check itself ends idle with the pending id cleared and
the delivery reported, without any transmission and without touching retry
count, retries or failed count; and so does the whole loop pass, however much
time has gone by, when no operator command is waiting. -/
theorem matching_ack_completes (C : Collaborators σ) (air : Nat → Bool) (rx : LoRaRx)
    (n : Node σ) (m : Message)
    (hst : n.currentState = State.STATE_TX_WAIT_ACK)
    (hin : inbound C rx n = some m)
    (hty : m.type = MessageType.MSG_ACK) (hlen : 3 ≤ m.payloadLength)
    (hid : ackedMsgId m = n.pendingMessageId) :
    ((checkLoRaReceive C air rx n).currentState = State.STATE_IDLE ∧
     (checkLoRaReceive C air rx n).pendingMessageId = 0 ∧
     transmissions (checkLoRaReceive C air rx n) = transmissions n ∧
     ackReportsOf (checkLoRaReceive C air rx n).events =
       ackReportsOf n.events ++ [n.pendingMessageId] ∧
     (checkLoRaReceive C air rx n).retryCount = n.retryCount ∧
     (checkLoRaReceive C air rx n).stats.retries = n.stats.retries ∧
     (checkLoRaReceive C air rx n).stats.messagesFailed = n.stats.messagesFailed) ∧
    ∀ (p : Nat) (serial : SerialIn), serial.available = false →
      (loop C air ⟨p, rx, serial⟩ n).currentState = State.STATE_IDLE ∧
      (loop C air ⟨p, rx, serial⟩ n).pendingMessageId = 0 ∧
      transmissions (loop C air ⟨p, rx, serial⟩ n) = transmissions n ∧
      ackReportsOf (loop C air ⟨p, rx, serial⟩ n).events =
        ackReportsOf n.events ++ [n.pendingMessageId] ∧
      (loop C air ⟨p, rx, serial⟩ n).retryCount = n.retryCount ∧
      (loop C air ⟨p, rx, serial⟩ n).stats.retries = n.stats.retries ∧
      (loop C air ⟨p, rx, serial⟩ n).stats.messagesFailed = n.stats.messagesFailed := by
  have key : ∀ k : Node σ, k.currentState = State.STATE_TX_WAIT_ACK →
      inbound C rx k = some m → ackedMsgId m = k.pendingMessageId →
      checkLoRaReceive C air rx k =
        { stored C rx k m with
          events := k.events ++
            [Event.dispatch m,
             Event.printAckReceived (ackedMsgId m) (decide (byteAt m.payload 2 = C.ACK_OK))]
          pendingMessageId := 0
          currentState := State.STATE_IDLE } := by
    intro k hk hink hidk
    rw [checkLoRaReceive_inbound C air rx k m hink, if_pos ⟨hk, hty⟩,
      handleRxProcessing_ack_match C air (stored C rx k m) hty hlen hidk]
    rfl
  refine ⟨?_, ?_⟩
  · rw [key n hst hin hid]
    simp [stored, transmissions, txOf_append, txOf, ackReportsOf_append, ackReportsOf, hid]
  · intro p serial hser
    simp only [loop]
    rw [key { n with clock := n.clock + p } hst hin hid]
    simp [hser, stateHandler, handleIdle, delay, stored, transmissions, txOf_append, txOf,
      ackReportsOf_append, ackReportsOf, hid]

/-- C2 amended, at a concrete input: the ACK for message 7 reaches the node that
has retried once, 5000 time units later, with a silent operator. -/
theorem matching_ack_completes_witness :
    (loop refCollab airOk ⟨5000, ackFor 7, serialNone⟩ exRetried7).currentState =
      State.STATE_IDLE ∧
    transmissions (loop refCollab airOk ⟨5000, ackFor 7, serialNone⟩ exRetried7) =
      transmissions exRetried7 ∧
    (loop refCollab airOk ⟨5000, ackFor 7, serialNone⟩ exRetried7).retryCount = 1 :=
  have h := (matching_ack_completes refCollab airOk (ackFor 7) exRetried7
    ⟨MessageType.MSG_ACK, 7, 3, [0, 7, 0], -60, 9⟩ (by decide) (by decide) (by decide)
    (by decide) (by decide)).2 5000 serialNone rfl
  ⟨h.1, h.2.2.1, h.2.2.2.2.1⟩

/-- C3 as stated fails, twice.  A COMMAND message with an empty payload that
arrives at the idle start-up node is dispatched and gets no reply.  A TEXT
message that arrives while the node awaits the ACK for message 7 is decoded, but
it is neither dispatched nor answered. -/
theorem text_or_command_without_ack :
    (initNode refCollab 1).currentState = State.STATE_IDLE ∧
    (inbound refCollab (rxOf (refFrame MessageType.MSG_COMMAND 9 [])) (initNode refCollab 1)).map
      (fun m => (m.type, m.messageId, m.payloadLength)) = some (MessageType.MSG_COMMAND, 9, 0) ∧
    transmissions (loop refCollab airOk ⟨0, rxOf (refFrame MessageType.MSG_COMMAND 9 []), serialNone⟩
      (initNode refCollab 1)) = [] ∧
    exAwaiting7.currentState = State.STATE_TX_WAIT_ACK ∧
    (inbound refCollab (rxOf (refFrame MessageType.MSG_TEXT 9 [104])) exAwaiting7).map
      (fun m => (m.type, m.messageId, m.payloadLength)) = some (MessageType.MSG_TEXT, 9, 1) ∧
    transmissions (loop refCollab airOk ⟨0, rxOf (refFrame MessageType.MSG_TEXT 9 [104]), serialNone⟩
      exAwaiting7) = transmissions exAwaiting7 ∧
    dispatchedOf (loop refCollab airOk ⟨0, rxOf (refFrame MessageType.MSG_TEXT 9 [104]), serialNone⟩
      exAwaiting7).events = [] := by
  decide

/-- C3, amended.  A packet that decodes to a TEXT message, or to a COMMAND message
with at least one payload byte, arrives while the node is idle, and the ACK
encoder yields a packet for its id with status `ACK_OK`.  Then the loop pass
dispatches the message, makes exactly one `sendPacket` call, with that ACK, and
ends idle. -/
theorem text_or_command_gets_one_ack (C : Collaborators σ) (air : Nat → Bool) (p : Nat)
    (rx : LoRaRx) (serial : SerialIn) (n : Node σ) (m : Message)
    (hst : n.currentState = State.STATE_IDLE)
    (hin : inbound C rx n = some m)
    (hty : m.type = MessageType.MSG_TEXT ∨
      (m.type = MessageType.MSG_COMMAND ∧ 1 ≤ m.payloadLength))
    (henc : (C.encodeAck n.collab m.messageId C.ACK_OK n.txBuffer).1 ≠ 0) :
    transmissions (loop C air ⟨p, rx, serial⟩ n) = transmissions n ++
      [((C.encodeAck n.collab m.messageId C.ACK_OK n.txBuffer).2.1.take
          (C.encodeAck n.collab m.messageId C.ACK_OK n.txBuffer).1,
        (C.encodeAck n.collab m.messageId C.ACK_OK n.txBuffer).1,
        decide ((C.encodeAck n.collab m.messageId C.ACK_OK n.txBuffer).1 ≤ 255) &&
          air n.sendCalls)] ∧
    dispatchedOf (loop C air ⟨p, rx, serial⟩ n).events = dispatchedOf n.events ++ [m] ∧
    (loop C air ⟨p, rx, serial⟩ n).currentState = State.STATE_IDLE := by
  rw [loop_idle_inbound C air p rx serial n m hst hin]
  obtain ⟨h1, h2, h3, _⟩ := handleRxProcessing_text_command C air
    { stored C rx { n with clock := n.clock + p } m with
      currentState := State.STATE_RX_PROCESSING } rfl hty henc
  refine ⟨?_, ?_, ?_⟩
  · simp only [transmissions] at h2 ⊢
    simp only [delay, txOf_append, h2]
    simp [stored, txOf]
  · simp only [delay, dispatchedOf_append, h3]
    simp [stored, dispatchedOf]
  · simp only [delay, h1]

/-- C3 amended, at a concrete input: the text `h` with id 9 reaches the idle
start-up node, which answers with the ACK for 9. -/
theorem text_or_command_gets_one_ack_witness :
    transmissions (loop refCollab airOk ⟨0, rxOf (refFrame MessageType.MSG_TEXT 9 [104]), serialNone⟩
      (initNode refCollab 1)) = [(refFrame MessageType.MSG_ACK 9 [0, 9, 0], 8, true)] := by
  have h := (text_or_command_gets_one_ack refCollab airOk 0
    (rxOf (refFrame MessageType.MSG_TEXT 9 [104])) serialNone (initNode refCollab 1)
    ⟨MessageType.MSG_TEXT, 9, 1, [104], -60, 9⟩ (by decide) (by decide) (by decide)
    (by decide)).1
  rw [h]
  decide

/-- C4 as stated fails: a SENSOR_REQUEST with an empty payload reaches the idle
start-up node.  It is dispatched, and nothing at all is transmitted. -/
theorem sensor_request_without_reply :
    (checkLoRaReceive refCollab airOk (rxOf (refFrame MessageType.MSG_SENSOR_REQUEST 9 []))
      (initNode refCollab 1)).currentState = State.STATE_RX_PROCESSING ∧
    (checkLoRaReceive refCollab airOk (rxOf (refFrame MessageType.MSG_SENSOR_REQUEST 9 []))
      (initNode refCollab 1)).lastRxMessage =
        ⟨MessageType.MSG_SENSOR_REQUEST, 9, 0, [], -60, 9⟩ ∧
    dispatchedOf (handleRxProcessing refCollab airOk
      (checkLoRaReceive refCollab airOk (rxOf (refFrame MessageType.MSG_SENSOR_REQUEST 9 []))
        (initNode refCollab 1))).events = [⟨MessageType.MSG_SENSOR_REQUEST, 9, 0, [], -60, 9⟩] ∧
    transmissions (handleRxProcessing refCollab airOk
      (checkLoRaReceive refCollab airOk (rxOf (refFrame MessageType.MSG_SENSOR_REQUEST 9 []))
        (initNode refCollab 1))) = [] := by
  decide

/-- C4, amended.  `handleRxProcessing` runs in `STATE_RX_PROCESSING` on a
SENSOR_REQUEST with at least one payload byte, and both encoders yield a
packet.  Then it does exactly this, in this order: one `sendPacket` call with
the ACK for the request id, `delay(100)`, one `sendPacket` call with the sensor
response.  Afterwards the node is idle, and pending id, retry count and timer
are what they were. -/
theorem sensor_request_gets_ack_then_data (C : Collaborators σ) (air : Nat → Bool) (n : Node σ)
    (hst : n.currentState = State.STATE_RX_PROCESSING)
    (hty : n.lastRxMessage.type = MessageType.MSG_SENSOR_REQUEST)
    (hlen : 1 ≤ n.lastRxMessage.payloadLength)
    (hack : (C.encodeAck n.collab n.lastRxMessage.messageId C.ACK_OK n.txBuffer).1 ≠ 0)
    (hdat : (sensorResponseOf C n).1 ≠ 0) :
    (handleRxProcessing C air n).events = n.events ++
      [Event.dispatch n.lastRxMessage,
       Event.tx
        ((C.encodeAck n.collab n.lastRxMessage.messageId C.ACK_OK n.txBuffer).2.1.take
          (C.encodeAck n.collab n.lastRxMessage.messageId C.ACK_OK n.txBuffer).1)
        (C.encodeAck n.collab n.lastRxMessage.messageId C.ACK_OK n.txBuffer).1
        (decide ((C.encodeAck n.collab n.lastRxMessage.messageId C.ACK_OK n.txBuffer).1 ≤ 255) &&
          air n.sendCalls),
       Event.delay 100,
       Event.tx ((sensorResponseOf C n).2.1.take (sensorResponseOf C n).1)
        (sensorResponseOf C n).1
        (decide ((sensorResponseOf C n).1 ≤ 255) && air (n.sendCalls + 1))] ∧
    (handleRxProcessing C air n).currentState = State.STATE_IDLE ∧
    (handleRxProcessing C air n).pendingMessageId = n.pendingMessageId ∧
    (handleRxProcessing C air n).retryCount = n.retryCount ∧
    (handleRxProcessing C air n).txTimestamp = n.txTimestamp := by
  have hpos : 0 < (sensorResponseOf C n).1 := Nat.pos_of_ne_zero hdat
  unfold sensorResponseOf at hdat hpos
  simp [handleRxProcessing, dispatchByType, hty, hlen, sendAck_encoded, hack, hst, delay,
    sensorResponseOf, hdat, hpos, sendPacket_snd, sendPacket_fst]

/-- C4 amended, at a concrete input: a request for sensor 1 with id 9 is
dispatched on the start-up node. -/
theorem sensor_request_gets_ack_then_data_witness :
    transmissions (handleRxProcessing refCollab airOk
      (checkLoRaReceive refCollab airOk (rxOf (refFrame MessageType.MSG_SENSOR_REQUEST 9 [1]))
        (initNode refCollab 1))) =
      [(refFrame MessageType.MSG_ACK 9 [0, 9, 0], 8, true),
       (refFrame MessageType.MSG_SENSOR_RESPONSE 1 [1, 0, 0, 0, 0], 10, true)] := by
  have h := (sensor_request_gets_ack_then_data refCollab airOk
    (checkLoRaReceive refCollab airOk (rxOf (refFrame MessageType.MSG_SENSOR_REQUEST 9 [1]))
      (initNode refCollab 1)) (by decide) (by decide) (by decide) (by decide) (by decide)).1
  rw [transmissions, h]
  decide

/-- C5, evaluated where the code departs from it.  An ACK for message 0 reaches the
idle start-up node, which has nothing pending: a delivery is reported.  And
an ACK for message 7 reaches the idle node whose `send hi` (message 7) the radio
had refused: a delivery is reported and the pending id changes from 7 to 0. -/
theorem ack_while_idle_reported :
    (initNode refCollab 1).currentState = State.STATE_IDLE ∧
    (initNode refCollab 1).pendingMessageId = 0 ∧
    ackReportsOf (loop refCollab airOk ⟨0, ackFor 0, serialNone⟩ (initNode refCollab 1)).events
      = [0] ∧
    exRefused7.currentState = State.STATE_IDLE ∧
    exRefused7.pendingMessageId = 7 ∧
    (transmissions exRefused7).map (fun t => t.2.2) = [false] ∧
    ackReportsOf (loop refCollab airOk ⟨0, ackFor 7, serialNone⟩ exRefused7).events = [7] ∧
    (loop refCollab airOk ⟨0, ackFor 7, serialNone⟩ exRefused7).pendingMessageId = 0 := by
  decide

/-- C6.  The radio delivers a packet on which `decode` fails.  In every state the
receive check leaves state, pending id, retry count, timer, transmit buffer
and stored length as they were, transmits nothing and runs no dispatch.  And
in every state a loop pass can start in (any but `STATE_RX_PROCESSING`), for
every operator input and elapsed time: the pass runs no dispatch, and its
outcome, seen through the protocol view (state, pending id, timer, retry
count, stored packet, codec state, clock, all transmissions, all dispatches), is
the outcome of the same pass with no packet on the radio. -/
theorem decode_failure_dropped (C : Collaborators σ) (air : Nat → Bool) (rx : LoRaRx)
    (n : Node σ) (h : decodeFails C rx n) :
    ((checkLoRaReceive C air rx n).currentState = n.currentState ∧
     (checkLoRaReceive C air rx n).pendingMessageId = n.pendingMessageId ∧
     (checkLoRaReceive C air rx n).retryCount = n.retryCount ∧
     (checkLoRaReceive C air rx n).txTimestamp = n.txTimestamp ∧
     (checkLoRaReceive C air rx n).txBuffer = n.txBuffer ∧
     (checkLoRaReceive C air rx n).lastTxLength = n.lastTxLength ∧
     transmissions (checkLoRaReceive C air rx n) = transmissions n ∧
     dispatchedOf (checkLoRaReceive C air rx n).events = dispatchedOf n.events) ∧
    ∀ (p : Nat) (serial : SerialIn), n.currentState ≠ State.STATE_RX_PROCESSING →
      dispatchedOf (loop C air ⟨p, rx, serial⟩ n).events = dispatchedOf n.events ∧
      view (loop C air ⟨p, rx, serial⟩ n) = view (loop C air ⟨p, (quiet p).radio, serial⟩ n) := by
  refine ⟨?_, ?_⟩
  · rw [checkLoRaReceive_decodeFails C air rx n h]
    simp [stored, transmissions, txOf_append, txOf, dispatchedOf_append, dispatchedOf]
  · intro p serial hst
    have hv := view_loop_decodeFails C air p rx serial n h hst
    refine ⟨?_, hv⟩
    have hd := ((view_eq_iff _ _).1 hv).2.2.2.2.2.2.2.2.2.2
    rw [hd, dispatchedOf_loop_quiet C air p serial n hst]

/-- C6 at a concrete input: a text packet with a wrong checksum reaches the node
awaiting the ACK for message 7, after the timeout.  The pass retransmits message 7
as it does without the packet, and dispatches nothing. -/
theorem decode_failure_dropped_witness :
    decodeFails refCollab (rxOf [1, 0, 9, 1, 104, 0]) exAwaiting7 ∧
    dispatchedOf (loop refCollab airOk ⟨2000, rxOf [1, 0, 9, 1, 104, 0], serialNone⟩
      exAwaiting7).events = dispatchedOf exAwaiting7.events ∧
    view (loop refCollab airOk ⟨2000, rxOf [1, 0, 9, 1, 104, 0], serialNone⟩ exAwaiting7) =
      view (loop refCollab airOk ⟨2000, (quiet 2000).radio, serialNone⟩ exAwaiting7) :=
  ⟨by decide,
   (decode_failure_dropped refCollab airOk (rxOf [1, 0, 9, 1, 104, 0]) exAwaiting7
      (by decide)).2 2000 serialNone (by decide)⟩

/-- C7.  A submit (text, sensor request or command) from idle whose encoder yields
a non-empty packet, whose `sendPacket` succeeds, and whose packet the codec
decodes to the message `m`: the node awaits the ACK, exactly one transmission
was made, the stored bytes and length are the transmitted ones, the pending id
is the id of `m`, the retry count is 0, the timer holds the current time, and
the sent count went up by one. -/
theorem submit_creates_pending_send (C : Collaborators σ) (air : Nat → Bool) (sub : Submit)
    (n : Node σ) (m : Message)
    (_hidle : n.currentState = State.STATE_IDLE)
    (henc : (encodeOf C sub n).1 ≠ 0)
    (hsend : (sendPacket air n (encodeOf C sub n).2.1 (encodeOf C sub n).1).1 = true)
    (hdec : C.decode (encodeOf C sub n).2.1 (encodeOf C sub n).1 blankMessage = (true, m)) :
    (submit C air sub n).currentState = State.STATE_TX_WAIT_ACK ∧
    transmissions (submit C air sub n) = transmissions n ++
      [((submit C air sub n).txBuffer.take (submit C air sub n).lastTxLength,
        (submit C air sub n).lastTxLength, true)] ∧
    (submit C air sub n).txBuffer = (encodeOf C sub n).2.1 ∧
    (submit C air sub n).lastTxLength = (encodeOf C sub n).1 ∧
    (submit C air sub n).pendingMessageId = m.messageId ∧
    (submit C air sub n).retryCount = 0 ∧
    (submit C air sub n).txTimestamp = millis (submit C air sub n) ∧
    (submit C air sub n).stats.messagesSent = n.stats.messagesSent + 1 := by
  obtain ⟨h1, h2, h3, h4, h5, h6, h7, _, _, h10, h11, _, _⟩ :=
    submit_sent C air sub n henc hsend
  refine ⟨h1, ?_, h2, h3, ?_, h4, ?_, h7⟩
  · rw [h10, h2, h3]
  · rw [h11, hdec]
    simp
  · rw [h5]
    simp [millis, h6]

/-- C7 at a concrete input: `send hi` on the reference node with counter 7. -/
theorem submit_creates_pending_send_witness :
    exAwaiting7.currentState = State.STATE_TX_WAIT_ACK ∧
    transmissions exAwaiting7 = [([1, 0, 7, 2, 104, 105, 5], 7, true)] ∧
    exAwaiting7.pendingMessageId = 7 ∧
    exAwaiting7.retryCount = 0 := by
  obtain ⟨h1, h2, _, _, h5, h6, _, _⟩ :=
    submit_creates_pending_send refCollab airOk (Submit.text "hi") (initNode refCollab 7)
      ⟨MessageType.MSG_TEXT, 7, 2, [104, 105], 0, 0⟩ (by decide) (by decide) (by decide)
      (by decide)
  refine ⟨h1, ?_, h5, h6⟩
  rw [exAwaiting7, h2]
  decide

/-- C8, evaluated where the code departs from it.  The operator submits `hi`
(message 7) on the idle start-up node and the radio refuses the packet.  The node
stays idle after one send attempt, but the pending id is 7, not 0. -/
theorem failed_submit_keeps_pending_id :
    (initNode refCollab 7).currentState = State.STATE_IDLE ∧
    (initNode refCollab 7).pendingMessageId = 0 ∧
    (submit refCollab airDown (Submit.text "hi") (initNode refCollab 7)).currentState =
      State.STATE_IDLE ∧
    transmissions (submit refCollab airDown (Submit.text "hi") (initNode refCollab 7)) =
      [([1, 0, 7, 2, 104, 105, 5], 7, false)] ∧
    (submit refCollab airDown (Submit.text "hi") (initNode refCollab 7)).pendingMessageId = 7 := by
  decide

/-- C9 as stated fails: the node awaiting the ACK for message 7 ticks at the instant
the timeout elapses, with no retry made yet, on a radio that refuses the
retransmission.  The retry is counted and the node keeps waiting, but the timer
still holds the time of the original transmission, 0, while the clock reads 2500. -/
theorem timeout_tick_timer_not_reset :
    (awaitTimeout exAwaiting7Once).currentState = State.STATE_TX_WAIT_ACK ∧
    ACK_TIMEOUT ≤ elapsed (awaitTimeout exAwaiting7Once) ∧
    (awaitTimeout exAwaiting7Once).retryCount < MAX_RETRIES ∧
    (handleTxWaitAck airOnce (awaitTimeout exAwaiting7Once)).retryCount = 1 ∧
    millis (handleTxWaitAck airOnce (awaitTimeout exAwaiting7Once)) = 2500 ∧
    (handleTxWaitAck airOnce (awaitTimeout exAwaiting7Once)).txTimestamp = 0 ∧
    (handleTxWaitAck airOnce (awaitTimeout exAwaiting7Once)).txTimestamp ≠
      millis (handleTxWaitAck airOnce (awaitTimeout exAwaiting7Once)) := by
  decide

/-- C9, amended.  A tick in `STATE_TX_WAIT_ACK` with the timeout elapsed, retries left
and a message pending (pending id and stored length non-zero): the node reports,
sleeps for `RETRY_DELAYS[retryCount]`, hands the stored bytes with the stored
length to `sendPacket`, and nothing else; the retry count and the retries
statistic go up by one, buffer, length, pending id and state stay; the timer
is the time after the sleep when the retransmission succeeded and is unchanged
when it failed. -/
theorem timeout_tick_retries (air : Nat → Bool) (n : Node σ)
    (hst : n.currentState = State.STATE_TX_WAIT_ACK)
    (hel : ACK_TIMEOUT ≤ elapsed n) (hrc : n.retryCount < MAX_RETRIES)
    (hp : n.pendingMessageId ≠ 0) (hl : n.lastTxLength ≠ 0) :
    (handleTxWaitAck air n).events = n.events ++
      [Event.printInfo "ACK timeout, retrying...",
       Event.delay (RETRY_DELAYS.getD n.retryCount 0),
       Event.tx (n.txBuffer.take n.lastTxLength) n.lastTxLength (resendOk air n),
       if resendOk air n = true then Event.printInfo "Message retransmitted"
       else Event.printError "Retry transmission failed"] ∧
    RETRY_DELAYS[n.retryCount]? = some (RETRY_DELAYS.getD n.retryCount 0) ∧
    (handleTxWaitAck air n).clock = n.clock + RETRY_DELAYS.getD n.retryCount 0 ∧
    (handleTxWaitAck air n).retryCount = n.retryCount + 1 ∧
    (handleTxWaitAck air n).stats.retries = n.stats.retries + 1 ∧
    (handleTxWaitAck air n).stats.messagesFailed = n.stats.messagesFailed ∧
    (handleTxWaitAck air n).currentState = State.STATE_TX_WAIT_ACK ∧
    (handleTxWaitAck air n).txBuffer = n.txBuffer ∧
    (handleTxWaitAck air n).lastTxLength = n.lastTxLength ∧
    (handleTxWaitAck air n).pendingMessageId = n.pendingMessageId ∧
    (handleTxWaitAck air n).txTimestamp =
      (if resendOk air n = true then millis (handleTxWaitAck air n) else n.txTimestamp) := by
  rw [handleTxWaitAck_retry air n hel hrc hp hl]
  refine ⟨rfl, ?_, rfl, rfl, rfl, rfl, hst, rfl, rfl, rfl, ?_⟩
  · unfold MAX_RETRIES at hrc
    unfold RETRY_DELAYS
    have : n.retryCount = 0 ∨ n.retryCount = 1 ∨ n.retryCount = 2 := by omega
    rcases this with h | h | h <;> simp [h]
  · simp [millis]

/-- C9 amended, at concrete inputs: the first timeout tick of the node awaiting the
ACK for message 7, on a working radio. -/
theorem timeout_tick_retries_witness :
    (handleTxWaitAck airOk (awaitTimeout exAwaiting7)).retryCount = 1 ∧
    (handleTxWaitAck airOk (awaitTimeout exAwaiting7)).clock = 2500 ∧
    (handleTxWaitAck airOk (awaitTimeout exAwaiting7)).txTimestamp = 2500 ∧
    transmissions (handleTxWaitAck airOk (awaitTimeout exAwaiting7)) =
      [([1, 0, 7, 2, 104, 105, 5], 7, true), ([1, 0, 7, 2, 104, 105, 5], 7, true)] := by
  obtain ⟨h1, _, h3, h4, _, _, _, _, _, _, h11⟩ :=
    timeout_tick_retries airOk (awaitTimeout exAwaiting7) (by decide) (by decide) (by decide)
      (by decide) (by decide)
  refine ⟨?_, ?_, ?_, ?_⟩
  · rw [h4]; decide
  · rw [h3]; decide
  · rw [h11, millis, h3]; decide
  · rw [transmissions, h1]; decide

/-- C10 as stated fails: message 7 is submitted at time 0 on a working radio, no
packet ever arrives and every tick happens the instant the timeout elapses.
Four transmissions are made and the failure is reported by the fourth tick,
but at time 11500, not 7500: after each retransmission the timer is armed anew
and a whole timeout goes by before the next backoff. -/
theorem scenario_B_not_7500 :
    (initNode refCollab 7).clock = 0 ∧
    (timeoutTicks airOk 3 exAwaiting7).currentState = State.STATE_TX_WAIT_ACK ∧
    (timeoutTicks airOk 4 exAwaiting7).currentState = State.STATE_IDLE ∧
    (transmissions (timeoutTicks airOk 4 exAwaiting7)).length = 4 ∧
    (timeoutTicks airOk 4 exAwaiting7).events.getLast? =
      some (Event.printError "Max retries exceeded, message failed") ∧
    (timeoutTicks airOk 4 exAwaiting7).clock = 11500 ∧
    (timeoutTicks airOk 4 exAwaiting7).clock ≠ 7500 := by
  decide

/-- C10, amended.  A submit that goes out on a radio where every transmission
succeeds, with a non-zero pending id, no packet ever received and every tick
evaluated the instant the timeout elapses: after three ticks the node still
waits, the fourth tick reports the failure and returns to idle; the stored
packet has been transmitted exactly four times, the sleeps were 500, 1000 and
2000, and the failure is reported 4 * 2000 + 500 + 1000 + 2000 = 11500 time
units after the submit. -/
theorem scenario_B_delivery_failed_at_11500 (C : Collaborators σ) (sub : Submit) (n : Node σ)
    (henc : (encodeOf C sub n).1 ≠ 0)
    (hsend : (sendPacket airOk n (encodeOf C sub n).2.1 (encodeOf C sub n).1).1 = true)
    (hid : (submit C airOk sub n).pendingMessageId ≠ 0) :
    (timeoutTicks airOk 3 (submit C airOk sub n)).currentState = State.STATE_TX_WAIT_ACK ∧
    (timeoutTicks airOk 4 (submit C airOk sub n)).currentState = State.STATE_IDLE ∧
    transmissions (timeoutTicks airOk 4 (submit C airOk sub n)) = transmissions n ++
      List.replicate 4 ((encodeOf C sub n).2.1.take (encodeOf C sub n).1,
        (encodeOf C sub n).1, true) ∧
    delaysOf (timeoutTicks airOk 4 (submit C airOk sub n)).events =
      delaysOf n.events ++ [500, 1000, 2000] ∧
    (timeoutTicks airOk 4 (submit C airOk sub n)).events =
      (timeoutTicks airOk 3 (submit C airOk sub n)).events ++
        [Event.printError "Max retries exceeded, message failed"] ∧
    (timeoutTicks airOk 4 (submit C airOk sub n)).clock = n.clock + 11500 ∧
    (timeoutTicks airOk 4 (submit C airOk sub n)).pendingMessageId = 0 ∧
    (timeoutTicks airOk 4 (submit C airOk sub n)).stats.messagesFailed =
      n.stats.messagesFailed + 1 := by
  obtain ⟨_, s2, s3, _, _, s6, _, s8, _, s10, _, _, s13⟩ :=
    submit_sent C airOk sub n henc hsend
  have a0 := submit_armed C airOk sub n henc hsend hid
  obtain ⟨a1, c1, t1, d1, b1, l1, f1, _⟩ := timeoutTick_armed _ 0 a0 (by decide)
  obtain ⟨a2, c2, t2, d2, b2, l2, f2, _⟩ := timeoutTick_armed _ 1 a1 (by decide)
  obtain ⟨a3, c3, t3, d3, b3, l3, f3, _⟩ := timeoutTick_armed _ 2 a2 (by decide)
  obtain ⟨e1, e2, e3, e4, e5, _⟩ := timeoutTick_exhausted airOk _ a3
  simp only [timeoutTicks, a0.1, a1.1, a2.1, a3.1, if_true]
  refine ⟨trivial, e1, ?_, ?_, e4, ?_, e2, ?_⟩
  · simp only [transmissions] at t1 t2 t3 s10 ⊢
    rw [e4, txOf_append, t3, t2, t1, s10, b2, b1, l2, l1, s2, s3]
    simp [txOf, List.replicate]
  · rw [e4, delaysOf_append, d3, d2, d1, s13]
    simp [delaysOf, RETRY_DELAYS]
  · rw [e3, c3, c2, c1, s6]
    simp [ACK_TIMEOUT, RETRY_DELAYS]
  · rw [e5, f3, f2, f1, s8]

/-- C10 amended, at a concrete input: `send hi` (message 7) at time 0. -/
theorem scenario_B_delivery_failed_at_11500_witness :
    (timeoutTicks airOk 4 exAwaiting7).clock = (initNode refCollab 7).clock + 11500 ∧
    transmissions (timeoutTicks airOk 4 exAwaiting7) =
      List.replicate 4 ([1, 0, 7, 2, 104, 105, 5], 7, true) := by
  obtain ⟨_, _, h3, _, _, h6, _, _⟩ :=
    scenario_B_delivery_failed_at_11500 refCollab (Submit.text "hi") (initNode refCollab 7)
      (by decide) (by decide) (by decide)
  refine ⟨h6, ?_⟩
  rw [exAwaiting7, h3]
  decide

/-- C11.  In every node reached from start-up by passes of `loop`, whatever the
radio delivers, the operator types, the clock reads and the transmissions
yield, the retry count is at most `MAX_RETRIES` = 3.  And in any node at all,
when `handleTxWaitAck` reads `RETRY_DELAYS[retryCount]` (timeout elapsed, retry
count below `MAX_RETRIES`), the index is inside the three-entry table and the
entry read is the time slept. -/
theorem retry_count_bounded (C : Collaborators σ) (air : Nat → Bool) (s : σ)
    (inputs : List LoopInput) :
    (runLoop C air inputs (initNode C s)).retryCount ≤ MAX_RETRIES ∧
    MAX_RETRIES = 3 ∧ RETRY_DELAYS.length = 3 ∧
    ∀ k : Node σ, ACK_TIMEOUT ≤ elapsed k → k.retryCount < MAX_RETRIES →
      k.retryCount < RETRY_DELAYS.length ∧
      ∃ d, RETRY_DELAYS[k.retryCount]? = some d ∧
        delaysOf (handleTxWaitAck air k).events = delaysOf k.events ++ [d] := by
  refine ⟨(runLoop_sound C air inputs _ (initNode_sound C s)).1, rfl, rfl, ?_⟩
  intro k hel hrc
  have hlt : k.retryCount < 3 := hrc
  refine ⟨hlt, RETRY_DELAYS.getD k.retryCount 0, ?_, ?_⟩
  · unfold RETRY_DELAYS
    have : k.retryCount = 0 ∨ k.retryCount = 1 ∨ k.retryCount = 2 := by omega
    rcases this with h | h | h <;> simp [h]
  · by_cases hp : k.pendingMessageId = 0 ∨ k.lastTxLength = 0
    · rw [handleTxWaitAck_guarded air k hel hrc hp]
      simp [delaysOf_append, delaysOf]
    · rw [handleTxWaitAck_retry air k hel hrc (fun h => hp (Or.inl h)) (fun h => hp (Or.inr h))]
      simp only [delaysOf_append]
      cases resendOk air k <;> simp [delaysOf]

/-- C11 at concrete inputs: after the operator typed `send yo` and two silent
passes went by, the retry count is within the bound; and the node awaiting the
ACK for message 7 reads entry 0 of the table at its first timeout and sleeps 500. -/
theorem retry_count_bounded_witness :
    (runLoop refCollab airOk [⟨0, rxNone, serialSendYo⟩, quiet 2000, quiet 2500]
      (initNode refCollab 7)).retryCount ≤ MAX_RETRIES ∧
    (awaitTimeout exAwaiting7).retryCount < RETRY_DELAYS.length ∧
    ∃ d, RETRY_DELAYS[(awaitTimeout exAwaiting7).retryCount]? = some d ∧
      delaysOf (handleTxWaitAck airOk (awaitTimeout exAwaiting7)).events =
        delaysOf (awaitTimeout exAwaiting7).events ++ [d] :=
  have h := retry_count_bounded refCollab airOk 7
    [⟨0, rxNone, serialSendYo⟩, quiet 2000, quiet 2500]
  ⟨h.1, h.2.2.2 (awaitTimeout exAwaiting7) (by decide) (by decide)⟩

/-- C12.  The two modules have different chip-select pins.  Then `selectModule(i)`
writes HIGH to the pin of module 1, HIGH to the pin of module 2 and after that,
when `i < 2`, LOW to the pin of module `i`, and nothing else; afterwards, when
`i < 2` the pin of module `i` is LOW and the pin of the other module is HIGH,
when `i >= 2` both are HIGH, and never are the pins of two modules LOW. -/
theorem select_module_exclusive (d : DualLoRaComm) (i : Nat) (g : Gpio)
    (hne : d.nssPins MODULE_1 ≠ d.nssPins MODULE_2) :
    (selectModule d i g).writes =
      g.writes ++ [(d.nssPins MODULE_1, Level.HIGH), (d.nssPins MODULE_2, Level.HIGH)] ++
        (if i < NUM_LORA_MODULES then [(d.nssPins i, Level.LOW)] else []) ∧
    (i < NUM_LORA_MODULES →
      (selectModule d i g).level (d.nssPins i) = Level.LOW ∧
      ∀ j, j < NUM_LORA_MODULES → j ≠ i →
        (selectModule d i g).level (d.nssPins j) = Level.HIGH) ∧
    (¬ i < NUM_LORA_MODULES →
      (selectModule d i g).level (d.nssPins MODULE_1) = Level.HIGH ∧
      (selectModule d i g).level (d.nssPins MODULE_2) = Level.HIGH) ∧
    ∀ j k, j < NUM_LORA_MODULES → k < NUM_LORA_MODULES →
      (selectModule d i g).level (d.nssPins j) = Level.LOW →
      (selectModule d i g).level (d.nssPins k) = Level.LOW → j = k := by
  unfold MODULE_1 MODULE_2 at hne
  have hne2 : d.nssPins 1 ≠ d.nssPins 0 := fun h => hne h.symm
  have hcase : i = 0 ∨ i = 1 ∨ ¬ i < 2 := by omega
  have hjs : ∀ j, j < 2 → j = 0 ∨ j = 1 := by omega
  refine ⟨?_, ?_, ?_, ?_⟩
  · rcases hcase with h | h | h <;>
      simp [selectModule, digitalWrite, NUM_LORA_MODULES, MODULE_1, MODULE_2, h]
  · intro hi
    rcases hcase with h | h | h
    · subst h
      refine ⟨by simp [selectModule, digitalWrite, NUM_LORA_MODULES, MODULE_1, MODULE_2], ?_⟩
      intro j hj hji
      rcases hjs j hj with h | h
      · exact absurd h hji
      · subst h
        simp [selectModule, digitalWrite, NUM_LORA_MODULES, MODULE_1, MODULE_2, hne2]
    · subst h
      refine ⟨by simp [selectModule, digitalWrite, NUM_LORA_MODULES, MODULE_1, MODULE_2], ?_⟩
      intro j hj hji
      rcases hjs j hj with h | h
      · subst h
        simp [selectModule, digitalWrite, NUM_LORA_MODULES, MODULE_1, MODULE_2, hne]
      · exact absurd h hji
    · exact absurd hi h
  · intro hi
    have hi2 : ¬ i < 2 := hi
    simp [selectModule, digitalWrite, NUM_LORA_MODULES, MODULE_1, MODULE_2, hi2, hne]
  · intro j k hj hk
    rcases hjs j hj with h1 | h1 <;> rcases hjs k hk with h2 | h2 <;> subst h1 <;> subst h2 <;>
      rcases hcase with h | h | h <;>
      simp [selectModule, digitalWrite, NUM_LORA_MODULES, MODULE_1, MODULE_2, h, hne, hne2]

/-- C12 at a concrete input: module 2 is selected on the board with pins 5 and 17. -/
theorem select_module_exclusive_witness :
    (selectModule exBoard 1 exGpio).writes =
      [(5, Level.HIGH), (17, Level.HIGH), (17, Level.LOW)] ∧
    (selectModule exBoard 1 exGpio).level 17 = Level.LOW ∧
    (selectModule exBoard 1 exGpio).level 5 = Level.HIGH := by
  obtain ⟨h1, h2, _, _⟩ := select_module_exclusive exBoard 1 exGpio (by decide)
  refine ⟨?_, ?_, ?_⟩
  · rw [h1]; decide
  · exact (h2 (by decide)).1
  · exact (h2 (by decide)).2 0 (by decide) (by decide)

/-- C13 as stated fails: a text packet with a wrong checksum reaches the node that
awaits the ACK for message 7.  Decoding fails, and the received count, the
accumulated signal strength and its sample count have all changed. -/
theorem decode_failure_is_counted :
    decodeFails refCollab (rxOf [1, 0, 9, 1, 104, 0]) exAwaiting7 ∧
    exAwaiting7.stats.messagesReceived = 0 ∧
    (checkLoRaReceive refCollab airOk (rxOf [1, 0, 9, 1, 104, 0]) exAwaiting7).stats.messagesReceived
      = 1 ∧
    exAwaiting7.stats.totalRSSI = 0 ∧
    (checkLoRaReceive refCollab airOk (rxOf [1, 0, 9, 1, 104, 0]) exAwaiting7).stats.totalRSSI
      = -60 ∧
    exAwaiting7.stats.rssiCount = 0 ∧
    (checkLoRaReceive refCollab airOk (rxOf [1, 0, 9, 1, 104, 0]) exAwaiting7).stats.rssiCount
      = 1 := by
  decide

/-- C13, amended.  After `checkLoRaReceive` on a packet whose decode fails, the
sent, failed and retries counters (and the start time) have the values they
had; the received count and the signal-strength sample count are one higher,
and the signal-strength total has grown by the strength of that packet. -/
theorem decode_failure_statistics (C : Collaborators σ) (air : Nat → Bool) (rx : LoRaRx)
    (n : Node σ) (h : decodeFails C rx n) :
    (checkLoRaReceive C air rx n).stats.messagesSent = n.stats.messagesSent ∧
    (checkLoRaReceive C air rx n).stats.messagesFailed = n.stats.messagesFailed ∧
    (checkLoRaReceive C air rx n).stats.retries = n.stats.retries ∧
    (checkLoRaReceive C air rx n).stats.startTime = n.stats.startTime ∧
    (checkLoRaReceive C air rx n).stats.messagesReceived = n.stats.messagesReceived + 1 ∧
    (checkLoRaReceive C air rx n).stats.rssiCount = n.stats.rssiCount + 1 ∧
    (checkLoRaReceive C air rx n).stats.totalRSSI = n.stats.totalRSSI + rx.packetRssi := by
  rw [checkLoRaReceive_decodeFails C air rx n h]
  have hp : rx.parsePacket ≠ 0 := by
    intro h0
    have := h.1
    simp [receivePacket, h0] at this
  simp [stored, receivePacket, hp]

/-- C13 amended, at a concrete input: the packet with the wrong checksum. -/
theorem decode_failure_statistics_witness :
    (checkLoRaReceive refCollab airOk (rxOf [1, 0, 9, 1, 104, 0]) exAwaiting7).stats.messagesSent
      = 1 ∧
    (checkLoRaReceive refCollab airOk (rxOf [1, 0, 9, 1, 104, 0]) exAwaiting7).stats.messagesReceived
      = 1 := by
  obtain ⟨h1, _, _, _, h5, _, _⟩ :=
    decode_failure_statistics refCollab airOk (rxOf [1, 0, 9, 1, 104, 0]) exAwaiting7 (by decide)
  exact ⟨by rw [h1]; decide, by rw [h5]; decide⟩

/-- C14.  A pass of `loop` (receive check, operator command, state handler) that
starts in `STATE_IDLE` or `STATE_TX_WAIT_ACK` ends in one of the two.
`handleRxProcessing` entered in `STATE_RX_PROCESSING` leaves the node idle, so the
pass that enters that state also leaves it.  From start-up `STATE_ERROR` is never
entered, neither between passes nor after the receive check or the operator
command inside a pass.  And `handleError` always leaves the node idle. -/
theorem loop_ends_idle_or_waiting (C : Collaborators σ) (air : Nat → Bool) :
    (∀ (i : LoopInput) (n : Node σ),
      n.currentState = State.STATE_IDLE ∨ n.currentState = State.STATE_TX_WAIT_ACK →
      (loop C air i n).currentState = State.STATE_IDLE ∨
      (loop C air i n).currentState = State.STATE_TX_WAIT_ACK) ∧
    (∀ n : Node σ, n.currentState = State.STATE_RX_PROCESSING →
      (handleRxProcessing C air n).currentState = State.STATE_IDLE ∧
      (stateHandler C air n).currentState = State.STATE_IDLE) ∧
    (∀ (s : σ) (inputs : List LoopInput) (i : LoopInput),
      (runLoop C air inputs (initNode C s)).currentState ≠ State.STATE_ERROR ∧
      (checkLoRaReceive C air i.radio
        { runLoop C air inputs (initNode C s) with
          clock := (runLoop C air inputs (initNode C s)).clock + i.passed }).currentState ≠
        State.STATE_ERROR ∧
      (processSerialCommand C air i.serial (checkLoRaReceive C air i.radio
        { runLoop C air inputs (initNode C s) with
          clock := (runLoop C air inputs (initNode C s)).clock + i.passed })).currentState ≠
        State.STATE_ERROR ∧
      (loop C air i (runLoop C air inputs (initNode C s))).currentState ≠ State.STATE_ERROR) ∧
    ∀ n : Node σ, (handleError n).currentState = State.STATE_IDLE := by
  refine ⟨fun i n h => loop_idle_or_waiting C air i n h, ?_, ?_, fun n => rfl⟩
  · intro n hs
    have hrx : (handleRxProcessing C air n).currentState = State.STATE_IDLE := by
      rcases (handleRxProcessing_core C air n).2.2 with ⟨h3, _⟩ | ⟨h3, _⟩
      · rw [h3, hs]
        simp
      · exact h3
    refine ⟨hrx, ?_⟩
    simp only [stateHandler, hs]
    exact hrx
  · intro s inputs i
    have hsound := runLoop_sound C air inputs _ (initNode_sound C s)
    have hmid := checkLoRaReceive_soundMid C air i.radio
      { runLoop C air inputs (initNode C s) with
        clock := (runLoop C air inputs (initNode C s)).clock + i.passed } hsound
    have hnext := loop_sound C air i _ hsound
    have e1 : ∀ k : Node σ, Sound k → k.currentState ≠ State.STATE_ERROR := by
      intro k hk
      rcases hk.2.1 with h | h <;> simp [h]
    have e2 : (checkLoRaReceive C air i.radio
        { runLoop C air inputs (initNode C s) with
          clock := (runLoop C air inputs (initNode C s)).clock + i.passed }).currentState ≠
        State.STATE_ERROR := by
      rcases hmid.2 with h | h | ⟨h, _⟩ <;> simp [h]
    refine ⟨e1 _ hsound, e2, ?_, e1 _ hnext⟩
    rcases processSerialCommand_state C air i.serial (checkLoRaReceive C air i.radio
        { runLoop C air inputs (initNode C s) with
          clock := (runLoop C air inputs (initNode C s)).clock + i.passed }) with h3 | h3
    · rw [h3]; exact e2
    · rw [h3]; decide

/-- C14 at a concrete input: a text for the idle start-up node, whose pass goes
through `STATE_RX_PROCESSING` and ends idle. -/
theorem loop_ends_idle_or_waiting_witness :
    (checkLoRaReceive refCollab airOk (rxOf (refFrame MessageType.MSG_TEXT 9 [104]))
      (initNode refCollab 1)).currentState = State.STATE_RX_PROCESSING ∧
    ((loop refCollab airOk ⟨0, rxOf (refFrame MessageType.MSG_TEXT 9 [104]), serialNone⟩
        (initNode refCollab 1)).currentState = State.STATE_IDLE ∨
      (loop refCollab airOk ⟨0, rxOf (refFrame MessageType.MSG_TEXT 9 [104]), serialNone⟩
        (initNode refCollab 1)).currentState = State.STATE_TX_WAIT_ACK) :=
  ⟨by decide,
   (loop_ends_idle_or_waiting refCollab airOk).1
     ⟨0, rxOf (refFrame MessageType.MSG_TEXT 9 [104]), serialNone⟩ (initNode refCollab 1)
     (Or.inl rfl)⟩

/-- C15.  With pending id 0 or stored length 0, `retryMessage` returns false and
leaves the node exactly as it is: no transmission, same retry count, retries
statistic and timer.  And when a node reached from start-up by passes of `loop`
is in `STATE_TX_WAIT_ACK` with pending id 0 or stored length 0, then after any
further passes none of which receives a matching ACK it is still in
`STATE_TX_WAIT_ACK` with the same retry count, timer, retries and failed counts,
it has transmitted nothing, and no delivery failure has been reported. -/
theorem pending_zero_never_completes (C : Collaborators σ) (air : Nat → Bool) :
    (∀ k : Node σ, k.pendingMessageId = 0 ∨ k.lastTxLength = 0 →
      retryMessage air k = (false, k)) ∧
    ∀ (s : σ) (pre inputs : List LoopInput),
      (runLoop C air pre (initNode C s)).currentState = State.STATE_TX_WAIT_ACK →
      ((runLoop C air pre (initNode C s)).pendingMessageId = 0 ∨
        (runLoop C air pre (initNode C s)).lastTxLength = 0) →
      neverAcked C air inputs (runLoop C air pre (initNode C s)) = true →
      (runLoop C air inputs (runLoop C air pre (initNode C s))).currentState =
        State.STATE_TX_WAIT_ACK ∧
      (runLoop C air inputs (runLoop C air pre (initNode C s))).retryCount =
        (runLoop C air pre (initNode C s)).retryCount ∧
      (runLoop C air inputs (runLoop C air pre (initNode C s))).txTimestamp =
        (runLoop C air pre (initNode C s)).txTimestamp ∧
      (runLoop C air inputs (runLoop C air pre (initNode C s))).stats.retries =
        (runLoop C air pre (initNode C s)).stats.retries ∧
      (runLoop C air inputs (runLoop C air pre (initNode C s))).stats.messagesFailed =
        (runLoop C air pre (initNode C s)).stats.messagesFailed ∧
      transmissions (runLoop C air inputs (runLoop C air pre (initNode C s))) =
        transmissions (runLoop C air pre (initNode C s)) ∧
      deliveryFailuresOf (runLoop C air inputs (runLoop C air pre (initNode C s))).events =
        deliveryFailuresOf (runLoop C air pre (initNode C s)).events := by
  refine ⟨?_, ?_⟩
  · intro k hk
    simp [retryMessage, hk]
  · intro s pre inputs hst hp hna
    have hsound := runLoop_sound C air pre _ (initNode_sound C s)
    have htx := hsound.2.2 hst
    have hrc : (runLoop C air pre (initNode C s)).retryCount < MAX_RETRIES := by
      rcases hp with h | h
      · rw [htx.2 h]
        decide
      · exact absurd h htx.1
    exact runLoop_unacked_stuck C air inputs _ hst hp hrc hna

/-- C15 at a concrete input: at start-up the operator types `send yo` while the
message counter is 0; then follow a silent pass after the timeout, a pass that
receives a text, and a pass that receives the ACK for another message. -/
theorem pending_zero_never_completes_witness :
    (runLoop refCollab airOk
      [quiet 2000, ⟨3000, rxOf (refFrame MessageType.MSG_TEXT 9 [104]), serialNone⟩,
        ⟨0, ackFor 5, serialNone⟩]
      (runLoop refCollab airOk [⟨0, rxNone, serialSendYo⟩] (initNode refCollab 0))).currentState =
      State.STATE_TX_WAIT_ACK ∧
    transmissions (runLoop refCollab airOk
      [quiet 2000, ⟨3000, rxOf (refFrame MessageType.MSG_TEXT 9 [104]), serialNone⟩,
        ⟨0, ackFor 5, serialNone⟩]
      (runLoop refCollab airOk [⟨0, rxNone, serialSendYo⟩] (initNode refCollab 0))) =
      transmissions (runLoop refCollab airOk [⟨0, rxNone, serialSendYo⟩] (initNode refCollab 0)) :=
  have h := (pending_zero_never_completes refCollab airOk).2 0 [⟨0, rxNone, serialSendYo⟩]
    [quiet 2000, ⟨3000, rxOf (refFrame MessageType.MSG_TEXT 9 [104]), serialNone⟩,
      ⟨0, ackFor 5, serialNone⟩] (by decide) (by decide) (by decide)
  ⟨h.1, h.2.2.2.2.2.1⟩

/-- C16.  `LoRaComm::receivePacket` returns a count `n` that is at most `maxLength`;
it returns 0 and leaves the buffer when `LoRa.parsePacket()` finds no packet;
for a pending packet `n` is the minimum of the bytes available and `maxLength`;
the buffer keeps its size, every cell from index `n` on holds what it held, and
every cell below `n` holds the packet byte of the same index. -/
theorem receivePacket_within_buffer (rx : LoRaRx) (lc : LoRaComm) (buffer : List Nat)
    (maxLength : Nat) :
    (receivePacket rx lc buffer maxLength).1 ≤ maxLength ∧
    (rx.parsePacket = 0 → receivePacket rx lc buffer maxLength = (0, buffer, lc)) ∧
    (rx.parsePacket ≠ 0 →
      (receivePacket rx lc buffer maxLength).1 = min rx.fifo.length maxLength) ∧
    (receivePacket rx lc buffer maxLength).2.1.length = buffer.length ∧
    (∀ j, (receivePacket rx lc buffer maxLength).1 ≤ j →
      (receivePacket rx lc buffer maxLength).2.1[j]? = buffer[j]?) ∧
    (∀ j, j < (receivePacket rx lc buffer maxLength).1 → j < buffer.length →
      (receivePacket rx lc buffer maxLength).2.1[j]? = rx.fifo[j]?) := by
  obtain ⟨h1, h2, h3⟩ := readLoop_spec rx.fifo buffer 0 maxLength
  simp only [Nat.zero_add, Nat.sub_zero, Nat.zero_le, true_and] at h1 h3
  by_cases hp : rx.parsePacket = 0
  · simp [receivePacket, hp]
  · have e1 : (receivePacket rx lc buffer maxLength).1 = min rx.fifo.length maxLength := by
      simp [receivePacket, hp, h1]
    have e2 : (receivePacket rx lc buffer maxLength).2.1 =
        (readLoop rx.fifo buffer 0 maxLength).2 := by
      simp [receivePacket, hp]
    refine ⟨by rw [e1]; exact Nat.min_le_right _ _, fun h => absurd h hp, fun _ => e1,
      by rw [e2]; exact h2, ?_, ?_⟩
    · intro j hj
      rw [e1] at hj
      rw [e2, h3 j]
      have c : ¬ (j < min rx.fifo.length maxLength ∧ j < buffer.length) := by omega
      rw [if_neg c]
    · intro j hj hb
      rw [e1] at hj
      rw [e2, h3 j, if_pos ⟨hj, hb⟩]

/-- C16 at a concrete input: a five-byte packet read into an eight-byte buffer with
`maxLength` 3. -/
theorem receivePacket_within_buffer_witness :
    receivePacket (rxOf [1, 2, 3, 4, 5]) ⟨0, 0⟩ [9, 9, 9, 9, 9, 9, 9, 9] 3 =
      (3, [1, 2, 3, 9, 9, 9, 9, 9], ⟨-60, 9⟩) ∧
    (receivePacket (rxOf [1, 2, 3, 4, 5]) ⟨0, 0⟩ [9, 9, 9, 9, 9, 9, 9, 9] 3).1 =
      min (rxOf [1, 2, 3, 4, 5]).fifo.length 3 :=
  ⟨by decide,
   (receivePacket_within_buffer (rxOf [1, 2, 3, 4, 5]) ⟨0, 0⟩ [9, 9, 9, 9, 9, 9, 9, 9] 3).2.2.1
     (by decide)⟩

end LoRaFirmware
